import Mathlib

/-!
# MoneyManager — verification of the spreadsheet-backed record store

Shallow embedding of the core of the MoneyManager repository:
the Excel adapter (`file_io/excel_loader.py`), the validators
(`utils/validator.py`), the session orchestrator
(`managers/session_manager.py`), the analytics reader
(`managers/analytic_manager.py`) and the record model
(`models/transaction.py`).

Modelling conventions:
* Worksheets are total functions `Nat → Nat → CellVal` (1-based rows and
  columns, matching openpyxl's `cell(row=..., column=...)`).
* Python `float` is modelled by `Rat`.  Python guarantees that
  `float(str(x)) == x` for every float `x`, so the `str` round-trip of a
  numeric cell is modelled as the identity.
* Python string builtins (`strip`, `upper`, `lower`, `split`, `replace`,
  `int(...)`, `float(...)`) are modelled by explicit recursive functions on
  `List Char` below.  The models cover the ASCII fragment the workbook
  format uses; `float()` exponent forms, underscores in numeric literals
  and non-ASCII case mapping are outside the modelled fragment.
* Python exceptions are modelled with `Except Err`; an uncaught exception
  is an `Except.error`.
-/

namespace MoneyManager

/-- The single user-facing error kind (`utils/validator.py: ValidationError`)
plus the builtin Python exception kinds the modelled code can raise. -/
inductive Err where
  | validation (msg : String)
  | valueError (msg : String)
  | typeError (msg : String)
  | keyError (msg : String)
  | osError (msg : String)
  deriving DecidableEq, Repr

/-! ## Models of the Python string builtins -/

/-- The whitespace characters stripped by Python's `str.strip()`. -/
def pyWS (c : Char) : Bool :=
  c = ' ' || c = '\t' || c = '\n' || c = '\r' || c = '\x0b' || c = '\x0c'

/-- Drop leading whitespace from a character list. -/
def dropLeadWS : List Char → List Char
  | [] => []
  | c :: r => if pyWS c then dropLeadWS r else c :: r

/-- `str.strip()` on a character list. -/
def stripL (l : List Char) : List Char :=
  ((dropLeadWS ((dropLeadWS l).reverse)).reverse)

/-- Model of Python `str.strip()`. -/
def pyStrip (s : String) : String := ⟨stripL s.data⟩

/-- ASCII uppercase of one character (model of `str.upper()` per character). -/
def pyUpperChar (c : Char) : Char :=
  if 'a' ≤ c ∧ c ≤ 'z' then Char.ofNat (c.toNat - 32) else c

/-- Model of Python `str.upper()` (ASCII fragment). -/
def pyUpper (s : String) : String := ⟨s.data.map pyUpperChar⟩

/-- ASCII lowercase of one character (model of `str.lower()` per character). -/
def pyLowerChar (c : Char) : Char :=
  if 'A' ≤ c ∧ c ≤ 'Z' then Char.ofNat (c.toNat + 32) else c

/-- Model of Python `str.lower()` (ASCII fragment). -/
def pyLower (s : String) : String := ⟨s.data.map pyLowerChar⟩

/-- `s.split(sep)` for a one-character separator, keeping empty chunks,
exactly like Python's `str.split` with an explicit separator. -/
def splitOnCharL (sep : Char) : List Char → List (List Char)
  | [] => [[]]
  | c :: r =>
    match splitOnCharL sep r with
    | [] => if c = sep then [[], []] else [[c]]
    | h :: t => if c = sep then [] :: h :: t else (c :: h) :: t

/-- Decimal digit character for `d ≤ 9`. -/
def digitChar : Nat → Char
  | 0 => '0' | 1 => '1' | 2 => '2' | 3 => '3' | 4 => '4'
  | 5 => '5' | 6 => '6' | 7 => '7' | 8 => '8' | _ => '9'

/-- Fuel-driven digit printer (the fuel makes it structurally recursive,
so it evaluates inside the kernel; `natChars` supplies enough fuel). -/
def natCharsAux : Nat → Nat → List Char
  | 0, _ => []
  | fuel + 1, n =>
    if n < 10 then [digitChar n]
    else natCharsAux fuel (n / 10) ++ [digitChar (n % 10)]

/-- Decimal digit characters of a natural number (model of `str(int)` for
nonnegative values). -/
def natChars (n : Nat) : List Char := natCharsAux (n + 1) n

/-- `str(n)` for a natural number. -/
def natStr (n : Nat) : String := ⟨natChars n⟩

/-- Model of Python `str(int)`. -/
def intStr (i : Int) : String :=
  if i < 0 then "-" ++ natStr i.natAbs else natStr i.toNat

/-- Numeric value of a list of decimal digit characters (most significant
first), as used when parsing `int`/`float` literals. -/
def digitsVal (l : List Char) : Nat :=
  l.foldl (fun a c => 10 * a + (c.toNat - 48)) 0

/-- Is the character a decimal digit? -/
def isDig (c : Char) : Bool :=
  ['0', '1', '2', '3', '4', '5', '6', '7', '8', '9'].contains c

/-- Split an optional leading sign off a numeric literal; returns
(negative?, remaining characters). -/
def pySign : List Char → Bool × List Char
  | '+' :: r => (false, r)
  | '-' :: r => (true, r)
  | r => (false, r)

/-- Model of Python `int(s)` on strings: optional surrounding whitespace,
optional sign, then one or more decimal digits; `none` models `ValueError`.
(Underscore digit separators are outside the modelled fragment.) -/
def pyIntOfString (s : String) : Option Int :=
  let (neg, rest) := pySign (stripL s.data)
  if rest ≠ [] ∧ rest.all isDig then
    some ((if neg then -1 else 1) * digitsVal rest)
  else none

/-- Model of Python `float(s)` on strings, restricted to plain decimal
literals: optional surrounding whitespace, optional sign, digits with at
most one decimal point and at least one digit; `none` models `ValueError`.
(Exponents, `inf`, `nan` and underscores are outside the modelled
fragment.) -/
def pyFloatOfString (s : String) : Option Rat :=
  let (neg, rest) := pySign (stripL s.data)
  let sign : Rat := if neg then -1 else 1
  match splitOnCharL '.' rest with
  | [ip] =>
    if ip ≠ [] ∧ ip.all isDig then some (sign * digitsVal ip) else none
  | [ip, fp] =>
    if (ip ++ fp) ≠ [] ∧ ip.all isDig ∧ fp.all isDig then
      some (sign * ((digitsVal ip : Rat) + (digitsVal fp : Rat) / (10 : Rat) ^ fp.length))
    else none
  | _ => none

/-- Zero-pad a character list on the left to width `w`. -/
def padZeros (w : Nat) (l : List Char) : List Char :=
  List.replicate (w - l.length) '0' ++ l

/-- Model of Python's `f"{i:0wd}"` zero-padded integer formatting. -/
def pyFmtZero (w : Nat) (i : Int) : String :=
  if i < 0 then ⟨'-' :: padZeros (w - 1) (natChars i.natAbs)⟩
  else ⟨padZeros w (natChars i.toNat)⟩

/-- Truncation of a rational toward zero: model of Python `int(float)`. -/
def ratTrunc (q : Rat) : Int := Int.tdiv q.num (q.den : Int)

/-- Remove every occurrence of a character (model of
`str.replace(c, "")`). -/
def removeCharL (c : Char) (l : List Char) : List Char := l.filter (· ≠ c)

/-- `s.replace("$", "").replace(",", "")` from `ExcelLoader.to_float`. -/
def removeDollarComma (s : String) : String :=
  ⟨removeCharL ',' (removeCharL '$' s.data)⟩

instance {ε α : Type} [DecidableEq ε] [DecidableEq α] : DecidableEq (Except ε α) :=
  fun a b =>
    match a, b with
    | Except.error e1, Except.error e2 =>
      if h : e1 = e2 then Decidable.isTrue (by subst h; rfl)
      else Decidable.isFalse (fun hh => h (Except.error.inj hh))
    | Except.ok a1, Except.ok a2 =>
      if h : a1 = a2 then Decidable.isTrue (by subst h; rfl)
      else Decidable.isFalse (fun hh => h (Except.ok.inj hh))
    | Except.error _, Except.ok _ => Decidable.isFalse (fun hh => Except.noConfusion hh)
    | Except.ok _, Except.error _ => Decidable.isFalse (fun hh => Except.noConfusion hh)

/-! ## Workbook cells and worksheets -/

/-- A spreadsheet cell value: empty, a string, an int or a float
(floats modelled as rationals). -/
inductive CellVal where
  | none
  | s (str : String)
  | i (int : Int)
  | num (q : Rat)
  deriving DecidableEq, Repr

/-- Best-effort printable form of a float cell.  The exact `repr` text of a
Python float is immaterial to the claims (it is only inspected for
blankness, and numeric cells are never blank); integral floats print as
Python does (`"7.0"`). -/
def reprRat (q : Rat) : String :=
  if q.den = 1 then intStr q.num ++ ".0" else intStr q.num ++ "/" ++ natStr q.den

/-- Model of Python `str(cell_value)`.  Note `str(None) = "None"`. -/
def pyStr : CellVal → String
  | CellVal.none => "None"
  | CellVal.s t => t
  | CellVal.i n => intStr n
  | CellVal.num q => reprRat q

/-- A worksheet: 1-based (row, column) grid of cells, as accessed through
openpyxl's `ws.cell(row=..., column=...)`. -/
def Sheet : Type := Nat → Nat → CellVal

/-- Read a cell. -/
def getCell (ws : Sheet) (row col : Nat) : CellVal := ws row col

/-- Write a cell (`ws.cell(row=..., column=...).value = v`). -/
def setCell (ws : Sheet) (row col : Nat) (v : CellVal) : Sheet :=
  fun r c => if r = row ∧ c = col then v else ws r c

/-! ## `models/transaction.py` -/

/-- One financial entry (`models/transaction.py: Transaction`). -/
structure Transaction where
  date : String
  day : String
  category : String
  amount : Rat
  type : String
  description : String
  deriving DecidableEq, Repr

/-- Constructing a `Transaction` runs `__post_init__`: strings are
stripped, category/type uppercased, amount coerced to float (the float
coercion is the identity here because amounts are already rationals in
the model). -/
def Transaction.create (date day category : String) (amount : Rat)
    (ty description : String) : Transaction :=
  { date := pyStrip date
    day := pyStrip day
    category := pyUpper (pyStrip category)
    amount := amount
    type := pyUpper (pyStrip ty)
    description := pyStrip description }

/-! ## `utils/general_helper.py` -/

namespace GeneralHelper

/-- `GeneralHelper.is_leap_year`. -/
def is_leap_year (year : Int) : Bool :=
  (year % 4 = 0 ∧ year % 100 ≠ 0) ∨ year % 400 = 0

/-- The month→days table of `get_days_in_month` (February defaults to 28). -/
def month_days : List (String × Nat) :=
  [("january", 31), ("february", 28), ("march", 31), ("april", 30),
   ("may", 31), ("june", 30), ("july", 31), ("august", 31),
   ("september", 30), ("october", 31), ("november", 30), ("december", 31)]

/-- `GeneralHelper.get_days_in_month`: normalizes the month to lowercase,
raises `ValueError` on unknown months, and adjusts February for leap
years. -/
def get_days_in_month (month : String) (year : Int) : Except Err Nat :=
  let m := pyLower (pyStrip month)
  match List.lookup m month_days with
  | Option.none => Except.error (Err.valueError ("Invalid month name: " ++ m))
  | Option.some d =>
    Except.ok (if m = "february" ∧ is_leap_year year then 29 else d)

end GeneralHelper

/-- Days in a numbered month (1–12) of the proleptic Gregorian calendar:
the calendar against which Python's `datetime` validates a parsed date.
Same leap rule as `GeneralHelper.is_leap_year`. -/
def daysInMonthNum (m : Nat) (year : Int) : Nat :=
  match m with
  | 1 => 31
  | 2 => if GeneralHelper.is_leap_year year then 29 else 28
  | 3 => 31 | 4 => 30 | 5 => 31 | 6 => 30 | 7 => 31 | 8 => 31
  | 9 => 30 | 10 => 31 | 11 => 30 | 12 => 31
  | _ => 0

/-- Model of `datetime.strptime(s, "%Y-%m-%d")`: exactly three dash-joined
digit groups, `%Y` exactly four digits, `%m`/`%d` one or two digits, and
the result must be a valid `datetime` date (year ≥ 1, month 1–12, day
within the month).  `none` models `ValueError`. -/
def pyStrptimeYMD (s : String) : Option (Int × Nat × Nat) :=
  match splitOnCharL '-' s.data with
  | [ys, ms, ds] =>
    if ys.length = 4 ∧ ys.all isDig ∧
       1 ≤ ms.length ∧ ms.length ≤ 2 ∧ ms.all isDig ∧
       1 ≤ ds.length ∧ ds.length ≤ 2 ∧ ds.all isDig then
      let y := digitsVal ys
      let m := digitsVal ms
      let d := digitsVal ds
      if 1 ≤ y ∧ 1 ≤ m ∧ m ≤ 12 ∧ 1 ≤ d ∧ d ≤ daysInMonthNum m (y : Int) then
        some ((y : Int), m, d)
      else Option.none
    else Option.none
  | _ => Option.none

/-! ## `utils/validator.py` (pure validators) -/

/-- `_MONTH_KEYS` from `utils/validator.py`. -/
def MONTH_KEYS : List String :=
  ["JANUARY", "FEBRUARY", "MARCH", "APRIL", "MAY", "JUNE",
   "JULY", "AUGUST", "SEPTEMBER", "OCTOBER", "NOVEMBER", "DECEMBER"]

/-- `_MONTH_TO_NUM` from `utils/validator.py` (also the mapping of
`ExcelLoader.month_to_number`). -/
def MONTH_TO_NUM : List (String × Nat) :=
  [("JANUARY", 1), ("FEBRUARY", 2), ("MARCH", 3), ("APRIL", 4),
   ("MAY", 5), ("JUNE", 6), ("JULY", 7), ("AUGUST", 8),
   ("SEPTEMBER", 9), ("OCTOBER", 10), ("NOVEMBER", 11), ("DECEMBER", 12)]

/-- `validator.validate_year_value` (the argument is already an int). -/
def validate_year_value (year : Int) : Except Err Unit :=
  if year < 1900 ∨ year > 2100 then
    Except.error (Err.validation "Year must be between 1900 and 2100.")
  else Except.ok ()

/-- `validator.validate_month_name`: normalize + validate. -/
def validate_month_name (month_name : String) : Except Err String :=
  if pyStrip month_name = "" then
    Except.error (Err.validation "Month name is required.")
  else
    let key := pyUpper (pyStrip month_name)
    if MONTH_KEYS.contains key then Except.ok key
    else Except.error (Err.validation "Unknown month name. Use January-December.")

/-- `validator.validate_day_in_month` (the day argument is already an
int; negative days never reach this in the model, so `Nat`). -/
def validate_day_in_month (month_key : String) (year : Int) (day : Nat) :
    Except Err Unit :=
  match GeneralHelper.get_days_in_month month_key year with
  | Except.error _ =>
    Except.error (Err.validation "Could not validate the day for the given month/year.")
  | Except.ok max_day =>
    if day < 1 ∨ day > max_day then
      Except.error (Err.validation ("Day " ++ natStr day ++ " is not valid for " ++
        month_key ++ " " ++ intStr year ++ " (max = " ++ natStr max_day ++ ")."))
    else Except.ok ()

/-- `validator.validate_slot_index`. -/
def validate_slot_index (slot_index : Nat) : Except Err Unit :=
  if slot_index ≠ 0 ∧ slot_index ≠ 1 then
    Except.error (Err.validation "Slot index must be 0 or 1.")
  else Except.ok ()

/-- `validator.validate_transaction_or_none`.  The `float(tx.amount)`
conversion always succeeds in the model because amounts are rationals. -/
def validate_transaction_or_none : Option Transaction → Except Err Unit
  | Option.none => Except.ok ()
  | Option.some tx =>
    if tx.amount < 0 then
      Except.error (Err.validation "Transaction amount must be non-negative.")
    else
      let t := pyUpper (pyStrip tx.type)
      if ¬ (t = "INCOME" ∨ t = "EXPENSE") then
        Except.error (Err.validation "Transaction type must be INCOME or EXPENSE.")
      else if pyStrip tx.category = "" then
        Except.error (Err.validation "Transaction category cannot be empty.")
      else
        let date_s := pyStrip tx.date
        if date_s = "" then
          Except.error (Err.validation "Transaction date is required (YYYY-MM-DD).")
        else
          match pyStrptimeYMD date_s with
          | Option.none =>
            Except.error (Err.validation "Invalid date format. Expected YYYY-MM-DD.")
          | Option.some _ => Except.ok ()

/-- `validator.validate_date_matches_month`. -/
def validate_date_matches_month (month_key : String) (date_str : String)
    (year : Int) : Except Err Unit :=
  match pyStrptimeYMD date_str with
  | Option.none =>
    Except.error (Err.validation "Invalid transaction date. Expected YYYY-MM-DD.")
  | Option.some (y, m, _) =>
    match List.lookup (pyUpper (pyStrip month_key)) MONTH_TO_NUM with
    | Option.none =>
      Except.error (Err.validation "Unknown month name. Use January-December.")
    | Option.some mn =>
      if y ≠ year ∨ m ≠ mn then
        Except.error (Err.validation ("Date " ++ date_str ++ " does not belong to " ++
          month_key ++ " " ++ intStr year ++ "."))
      else Except.ok ()

/-! ## `file_io/excel_loader.py`: worksheet-level operations

The workbook-handle lifecycle (`open`/`close`/`ensure_open`) is modelled
separately in the `Loader` state layer further below; the functions here
operate on the already-open worksheet, which is how every call site uses
them once `ensure_open` has passed. -/

namespace ExcelLoader

/-- `TEMPLATE_MARKER_CELL = "A1"` as (row, column). -/
def TEMPLATE_MARKER_ROW : Nat := 1
def TEMPLATE_MARKER_COL : Nat := 1
def TEMPLATE_MARKER_VALUE : String := "MM_TMU"

/-- `YEAR_CELL = "B6"` as (row, column). -/
def YEAR_ROW : Nat := 6
def YEAR_COL : Nat := 2

/-- `CURRENT_INCOME_CELL = "C5"` as (row, column). -/
def INCOME_ROW : Nat := 5
def INCOME_COL : Nat := 3

/-- `MONTH_ANCHOR_ROW` dictionary. -/
def MONTH_ANCHOR_ROW : List (String × Nat) :=
  [("JANUARY", 8), ("FEBRUARY", 72), ("MARCH", 132), ("APRIL", 196),
   ("MAY", 258), ("JUNE", 322), ("JULY", 384), ("AUGUST", 448),
   ("SEPTEMBER", 512), ("OCTOBER", 574), ("NOVEMBER", 638), ("DECEMBER", 700)]

/-- `COL` column mapping (1-based). -/
def COL_DATE : Nat := 1
def COL_DAY : Nat := 3
def COL_CATEGORY : Nat := 4
def COL_AMOUNT : Nat := 9
def COL_TYPE : Nat := 10
def COL_DESCRIPTION : Nat := 11

/-- `COL.values()` in declaration order. -/
def COL_values : List Nat :=
  [COL_DATE, COL_DAY, COL_CATEGORY, COL_AMOUNT, COL_TYPE, COL_DESCRIPTION]

/-- `VALID_TYPES`. -/
def VALID_TYPES : List String := ["EXPENSE", "INCOME", "NONE"]

/-- `months_in_order()`. -/
def months_in_order : List String :=
  ["JANUARY", "FEBRUARY", "MARCH", "APRIL", "MAY", "JUNE",
   "JULY", "AUGUST", "SEPTEMBER", "OCTOBER", "NOVEMBER", "DECEMBER"]

/-- `verify_template()`: marker cell must read `MM_TMU` after
`str(...).strip().upper()`. -/
def verify_template (ws : Sheet) : Bool :=
  pyUpper (pyStrip (pyStr (getCell ws TEMPLATE_MARKER_ROW TEMPLATE_MARKER_COL)))
    == TEMPLATE_MARKER_VALUE

/-- `get_year()`: `int(float(raw))` of the year cell.  `float(None)` is a
`TypeError`, an unparsable string a `ValueError`; numeric cells convert
exactly (`str` round-trip). -/
def get_year (ws : Sheet) : Except Err Int :=
  match getCell ws YEAR_ROW YEAR_COL with
  | CellVal.none => Except.error (Err.typeError "float() argument is None")
  | CellVal.i n => Except.ok n
  | CellVal.num q => Except.ok (ratTrunc q)
  | CellVal.s t =>
    match pyFloatOfString t with
    | Option.some q => Except.ok (ratTrunc q)
    | Option.none =>
      Except.error (Err.valueError ("could not convert string to float: " ++ t))

/-- `safe_cell_str`: cell as string, `""` for `None`. -/
def safe_cell_str (ws : Sheet) (row col : Nat) : String :=
  match getCell ws row col with
  | CellVal.none => ""
  | v => pyStr v

/-- `to_float`: best-effort currency-safe float coercion. -/
def to_float (raw : CellVal) : Rat :=
  match raw with
  | CellVal.none => 0
  | CellVal.i n => (n : Rat)
  | CellVal.num q => q
  | CellVal.s t =>
    let s := pyStrip t
    if s = "" then 0
    else
      match pyFloatOfString (removeDollarComma s) with
      | Option.some q => q
      | Option.none => 0

/-- `to_int`: best-effort int coercion, `int(float(str(raw)))`. -/
def to_int (raw : CellVal) : Int :=
  match raw with
  | CellVal.none => 0
  | CellVal.i n => n
  | CellVal.num q => ratTrunc q
  | CellVal.s t =>
    if pyStrip t = "" then 0
    else
      match pyFloatOfString t with
      | Option.some q => ratTrunc q
      | Option.none => 0

/-- `month_to_number`: dictionary access raising `KeyError` on unknown
keys. -/
def month_to_number (month_key : String) : Except Err Nat :=
  match List.lookup month_key MONTH_TO_NUM with
  | Option.some n => Except.ok n
  | Option.none => Except.error (Err.keyError month_key)

/-- `date_to_string`: `f"{year:04d}-{month_num:02d}-{day_number:02d}"`. -/
def date_to_string (year : Int) (month_key : String) (day_number : Int) :
    Except Err String :=
  match month_to_number month_key with
  | Except.error e => Except.error e
  | Except.ok m =>
    Except.ok (pyFmtZero 4 year ++ "-" ++ pyFmtZero 2 (m : Int) ++ "-" ++
      pyFmtZero 2 day_number)

/-- The pure formatting part of `date_to_string` once the month number is
resolved. -/
def date_string_num (year : Int) (month_num : Nat) (day_number : Int) : String :=
  pyFmtZero 4 year ++ "-" ++ pyFmtZero 2 (month_num : Int) ++ "-" ++
    pyFmtZero 2 day_number

/-- `extract_day`: last dash-separated component of the date as int, `0`
on any failure (the `except` catches everything). -/
def extract_day (date_str : String) : Int :=
  match (splitOnCharL '-' date_str.data).getLast? with
  | Option.some p => (pyIntOfString ⟨p⟩).getD 0
  | Option.none => 0

/-- `get_anchor_row`: dictionary access (`KeyError` on unknown keys). -/
def get_anchor_row (month_key : String) : Except Err Nat :=
  match List.lookup month_key MONTH_ANCHOR_ROW with
  | Option.some n => Except.ok n
  | Option.none => Except.error (Err.keyError month_key)

/-- `row_for_day`. -/
def row_for_day (anchor_row day slot_index : Nat) : Except Err Nat :=
  if day < 1 then Except.error (Err.validation "day must be >= 1")
  else if slot_index ≠ 0 ∧ slot_index ≠ 1 then
    Except.error (Err.validation "slot_index must be 0 or 1")
  else Except.ok (anchor_row + 2 + (day - 1) * 2 + slot_index)

/-- `clear_row`: clears all mapped columns in the row. -/
def clear_row (ws : Sheet) (row : Nat) : Sheet :=
  COL_values.foldl (fun w c => setCell w row c CellVal.none) ws

/-- `read_row_as_transaction`: parses one worksheet row into a record or
`none` for blanks/`NONE`/unrecognized types. -/
def read_row_as_transaction (month_key : String) (year : Int) (day : Nat)
    (row : Nat) (ws : Sheet) : Except Err (Option Transaction) :=
  let t := pyUpper (pyStrip (safe_cell_str ws row COL_TYPE))
  let date_cell := pyStrip (safe_cell_str ws row COL_DATE)
  let day_name := pyStrip (safe_cell_str ws row COL_DAY)
  let category := pyStrip (safe_cell_str ws row COL_CATEGORY)
  let amount_raw := getCell ws row COL_AMOUNT
  let desc := pyStrip (safe_cell_str ws row COL_DESCRIPTION)
  let is_all_blank :=
    t = "" ∧ date_cell = "" ∧ day_name = "" ∧ category = "" ∧ desc = "" ∧
      (amount_raw = CellVal.none ∨ pyStrip (pyStr amount_raw) = "")
  if t = "NONE" ∨ (t = "" ∧ is_all_blank) then Except.ok Option.none
  else if ¬ VALID_TYPES.contains t then Except.ok Option.none
  else
    let day_number : Int := if date_cell ≠ "" then to_int (CellVal.s date_cell) else (day : Int)
    match date_to_string year month_key day_number with
    | Except.error e => Except.error e
    | Except.ok date_str =>
      let amount_val := to_float amount_raw
      Except.ok (Option.some
        (Transaction.create date_str day_name category amount_val t desc))

/-- `write_day_entry`: validates, then writes or clears one (day, slot)
row.  Clearing writes the `NONE` marker into the type column. -/
def write_day_entry (ws : Sheet) (month_name : String) (day : Nat)
    (slot_index : Nat) (tx : Option Transaction) : Except Err Sheet :=
  match validate_month_name month_name with
  | Except.error e => Except.error e
  | Except.ok month_key =>
  match get_year ws with
  | Except.error e => Except.error e
  | Except.ok year =>
  match validate_day_in_month month_key year day with
  | Except.error e => Except.error e
  | Except.ok _ =>
  match validate_slot_index slot_index with
  | Except.error e => Except.error e
  | Except.ok _ =>
  match validate_transaction_or_none tx with
  | Except.error e => Except.error e
  | Except.ok _ =>
  match (match tx with
         | Option.some t =>
           match get_year ws with
           | Except.error e => Except.error e
           | Except.ok year2 => validate_date_matches_month month_key t.date year2
         | Option.none => Except.ok ()) with
  | Except.error e => Except.error e
  | Except.ok _ =>
  match get_anchor_row month_key with
  | Except.error e => Except.error e
  | Except.ok anchor =>
  match row_for_day anchor day slot_index with
  | Except.error e => Except.error e
  | Except.ok row =>
    match tx with
    | Option.none =>
      Except.ok (setCell (clear_row ws row) row COL_TYPE (CellVal.s "NONE"))
    | Option.some t =>
      Except.ok
        (setCell
          (setCell
            (setCell
              (setCell
                (setCell
                  (setCell ws row COL_DATE (CellVal.i (extract_day t.date)))
                  row COL_DAY (CellVal.s t.day))
                row COL_CATEGORY (CellVal.s t.category))
              row COL_AMOUNT (CellVal.num t.amount))
            row COL_TYPE (CellVal.s (pyUpper t.type)))
          row COL_DESCRIPTION (CellVal.s t.description))

/-- The sheet produced by the write branch of `write_day_entry` for a
present record: the six tracked cells of `row` overwritten from `tx`. -/
def writtenRow (ws : Sheet) (row : Nat) (tx : Transaction) : Sheet :=
  setCell
    (setCell
      (setCell
        (setCell
          (setCell
            (setCell ws row COL_DATE (CellVal.i (extract_day tx.date)))
            row COL_DAY (CellVal.s tx.day))
          row COL_CATEGORY (CellVal.s tx.category))
        row COL_AMOUNT (CellVal.num tx.amount))
      row COL_TYPE (CellVal.s (pyUpper tx.type)))
    row COL_DESCRIPTION (CellVal.s tx.description)

end ExcelLoader

/-- Sequence an error-raising computation over a list, collecting results
in order (models a Python `for` loop that builds a result). -/
def exceptMapM (f : α → Except Err β) : List α → Except Err (List β)
  | [] => Except.ok []
  | x :: xs =>
    match f x with
    | Except.error e => Except.error e
    | Except.ok y =>
      match exceptMapM f xs with
      | Except.error e => Except.error e
      | Except.ok ys => Except.ok (y :: ys)

/-- Fold an error-raising computation over a list (models a Python `for`
loop that updates state). -/
def exceptFoldl (f : σ → α → Except Err σ) : σ → List α → Except Err σ
  | acc, [] => Except.ok acc
  | acc, x :: xs =>
    match f acc x with
    | Except.error e => Except.error e
    | Except.ok acc2 => exceptFoldl f acc2 xs

namespace ExcelLoader

/-- `read_month`: `{day -> [slot0, slot1]}` for each day of the month, in
day order (the Python dict is keyed 1..day_count in insertion order). -/
def read_month (ws : Sheet) (month_name : String) :
    Except Err (List (Nat × (Option Transaction × Option Transaction))) :=
  match validate_month_name month_name with
  | Except.error e => Except.error e
  | Except.ok month_key =>
  match get_anchor_row month_key with
  | Except.error e => Except.error e
  | Except.ok anchor =>
  match get_year ws with
  | Except.error e => Except.error e
  | Except.ok year =>
  match GeneralHelper.get_days_in_month month_key year with
  | Except.error e => Except.error e
  | Except.ok day_count =>
    exceptMapM
      (fun d =>
        match row_for_day anchor d 0 with
        | Except.error e => Except.error e
        | Except.ok row_top =>
          match read_row_as_transaction month_key year d row_top ws with
          | Except.error e => Except.error e
          | Except.ok slot0 =>
            match read_row_as_transaction month_key year d (row_top + 1) ws with
            | Except.error e => Except.error e
            | Except.ok slot1 => Except.ok (d, (slot0, slot1)))
      ((List.range day_count).map (· + 1))

/-- `read_all`: every month in template order. -/
def read_all (ws : Sheet) :
    Except Err (List (String × List (Nat × (Option Transaction × Option Transaction)))) :=
  exceptMapM
    (fun m =>
      match read_month ws m with
      | Except.error e => Except.error e
      | Except.ok md => Except.ok (m, md))
    months_in_order

/-- `write_all`: write every (month, day, slot) of the given working set
in its own order (`data.items()`), slots enumerated 0, 1, .... -/
def write_all (ws : Sheet)
    (data : List (String × List (Nat × List (Option Transaction)))) :
    Except Err Sheet :=
  exceptFoldl
    (fun w md =>
      match validate_month_name md.1 with
      | Except.error e => Except.error e
      | Except.ok month_norm =>
        exceptFoldl
          (fun w2 de =>
            exceptFoldl
              (fun w3 itx => write_day_entry w3 month_norm de.1 itx.1 itx.2)
              w2 de.2.enum)
          w md.2)
    ws data

end ExcelLoader

/-! ## Filesystem model

The session orchestrator works against the local filesystem through
`pathlib`/`shutil`/`openpyxl`.  Files are an association list from path
strings to file records; directory creation and the temp-file write test
of `ensure_directory_writable` are summarized by membership in the set of
writable directories. -/

/-- One file: its workbook content, byte size, and whether it is readable
and loadable as a workbook. -/
structure FileRec where
  content : Sheet
  size : Nat
  readable : Bool
  loadable : Bool

/-- The filesystem state. -/
structure FS where
  files : List (String × FileRec)
  writableDirs : List String

/-- Look a file up by path. -/
def lookupFile (fs : FS) (p : String) : Option FileRec := List.lookup p fs.files

/-- `Path(p).exists() and Path(p).is_file()`. -/
def fileExists (fs : FS) (p : String) : Bool := (lookupFile fs p).isSome

/-- Create or overwrite a file, preserving its position in the listing. -/
def setFile (fs : FS) (p : String) (rec : FileRec) : FS :=
  if (lookupFile fs p).isSome then
    { fs with files := fs.files.map (fun q => if q.1 = p then (p, rec) else q) }
  else { fs with files := fs.files ++ [(p, rec)] }

/-- Delete a file. -/
def removeFile (fs : FS) (p : String) : FS :=
  { fs with files := fs.files.filter (fun q => q.1 ≠ p) }

/-- `shutil.copy2(src, dst)` (no-op if the validated source vanished). -/
def copyFile (fs : FS) (src dst : String) : FS :=
  match lookupFile fs src with
  | Option.some rec => setFile fs dst rec
  | Option.none => fs

/-- `shutil.move(src, dst)`. -/
def moveFile (fs : FS) (src dst : String) : FS :=
  match lookupFile fs src with
  | Option.some rec => setFile (removeFile fs src) dst rec
  | Option.none => fs

/-- Is `a` a prefix of `b`? -/
def isPrefixL : List Char → List Char → Bool
  | [], _ => true
  | _ :: _, [] => false
  | a :: as2, b :: bs => a = b && isPrefixL as2 bs

/-- Is `a` a suffix of `b`? -/
def isSuffixL (a b : List Char) : Bool := isPrefixL a.reverse b.reverse

/-- The final path component (`Path(p).name`). -/
def lastComponent (p : String) : List Char :=
  ((splitOnCharL '/' p.data).getLast?).getD []

/-- `Path(p).suffix` of a final component: the extension including the
dot, empty when there is no dot, or the dot is first or last. -/
def pathSuffixList (base : List Char) : List Char :=
  let rev := base.reverse
  let extRev := rev.takeWhile (· ≠ '.')
  if extRev.length = rev.length then []
  else if extRev.length = 0 then []
  else if rev.drop (extRev.length + 1) = [] then []
  else '.' :: extRev.reverse

/-- `Path(p).suffix`. -/
def pathSuffix (p : String) : String := ⟨pathSuffixList (lastComponent p)⟩

/-- `Path(p).stem`: final component minus its suffix. -/
def pathStem (p : String) : String :=
  let base := lastComponent p
  ⟨base.take (base.length - (pathSuffixList base).length)⟩

/-- `path.suffix.lower() == ".xlsx"`. -/
def hasXlsxSuffix (p : String) : Bool := pyLower (pathSuffix p) == ".xlsx"

/-! ## `utils/validator.py` (filesystem-facing validators) -/

/-- `ensure_directory_writable`: `mkdir -p` plus a temp-file write test,
summarized as membership in the writable-directory set. -/
def ensure_directory_writable (fs : FS) (directory : String) : Except Err Unit :=
  if fs.writableDirs.contains directory then Except.ok ()
  else Except.error (Err.validation ("This folder is not writable:\n" ++ directory))

/-- `validate_fresh_session_paths`. -/
def validate_fresh_session_paths (fs : FS) (template_path storage_dir : String) :
    Except Err Unit :=
  if ¬ fileExists fs template_path then
    Except.error (Err.validation ("Template not found at: " ++ template_path))
  else if ¬ hasXlsxSuffix template_path then
    Except.error (Err.validation "Template must be an .xlsx file.")
  else ensure_directory_writable fs storage_dir

/-- `validate_user_upload_path`. -/
def validate_user_upload_path (fs : FS) (file_path : String) : Except Err Unit :=
  if pyStrip file_path = "" then
    Except.error (Err.validation "Please select an Excel file (.xlsx).")
  else if ¬ fileExists fs file_path then
    Except.error (Err.validation ("File not found at: " ++ file_path))
  else if ¬ hasXlsxSuffix file_path then
    Except.error (Err.validation "Selected file must have a .xlsx extension.")
  else
    match lookupFile fs file_path with
    | Option.some f =>
      if f.readable then Except.ok ()
      else Except.error (Err.validation
        ("You do not have permission to read this file:\n" ++ file_path))
    | Option.none =>
      Except.error (Err.validation ("File not found at: " ++ file_path))

/-- Python truthiness of a cell value (`marker or ""`). -/
def pyFalsy (v : CellVal) : Bool :=
  match v with
  | CellVal.none => true
  | CellVal.s t => t = ""
  | CellVal.i n => n = 0
  | CellVal.num q => q = 0

/-- The marker check of `validate_template_signature`:
`str(marker or "").strip().upper() == "MM_TMU"`. -/
def validator_marker_ok (ws : Sheet) : Bool :=
  let marker := getCell ws ExcelLoader.TEMPLATE_MARKER_ROW ExcelLoader.TEMPLATE_MARKER_COL
  pyUpper (pyStrip (if pyFalsy marker then "" else pyStr marker))
    == ExcelLoader.TEMPLATE_MARKER_VALUE

/-- `validate_template_signature`: opens the workbook (any failure is
wrapped in a `ValidationError`) and checks the template marker.  The
`wb.save` used to close handles does not change the content. -/
def validate_template_signature (fs : FS) (file_path : String) : Except Err Unit :=
  match lookupFile fs file_path with
  | Option.none =>
    Except.error (Err.validation "Could not open the selected file.")
  | Option.some f =>
    if ¬ f.loadable then
      Except.error (Err.validation "Could not open the selected file.")
    else if validator_marker_ok f.content then Except.ok ()
    else
      Except.error (Err.validation
        "This file doesn't match the Money Manager template (missing 'MM_TMU' marker in cell A1).")

/-- `validate_upload_filesize` with the default 20 MB cap;
`size/(1024*1024) > 20` over the rationals is exactly `size > 20·2^20`.
The `:.1f`-formatted size in the message is elided. -/
def validate_upload_filesize (fs : FS) (file_path : String) : Except Err Unit :=
  match lookupFile fs file_path with
  | Option.none => Except.error (Err.osError ("stat: " ++ file_path))
  | Option.some f =>
    if 20 * 1048576 < f.size then
      Except.error (Err.validation "Upload too large. Limit is 20 MB.")
    else Except.ok ()

/-- `validate_open_excel_path`. -/
def validate_open_excel_path (fs : FS) (file_path : String) : Except Err Unit :=
  if pyStrip file_path = "" then
    Except.error (Err.validation "Please provide a workbook path to open.")
  else if ¬ fileExists fs file_path then
    Except.error (Err.validation ("Workbook not found at: " ++ file_path))
  else if ¬ hasXlsxSuffix file_path then
    Except.error (Err.validation "Workbook must be an .xlsx file.")
  else
    match lookupFile fs file_path with
    | Option.some f =>
      if f.readable then Except.ok ()
      else Except.error (Err.validation
        ("You do not have permission to read this workbook:\n" ++ file_path))
    | Option.none =>
      Except.error (Err.validation ("Workbook not found at: " ++ file_path))

/-- `validate_backup_directory`. -/
def validate_backup_directory (fs : FS) (backup_dir : String) : Except Err Unit :=
  if pyStrip backup_dir = "" then
    Except.error (Err.validation "Please choose a backup folder.")
  else ensure_directory_writable fs backup_dir

/-! ## `file_io/excel_loader.py`: the handle lifecycle -/

namespace ExcelLoader

/-- The adapter's mutable handle state (`_wb`, `_ws`, `_path`). -/
structure Loader where
  _wb : Option Sheet
  _ws : Option Sheet
  _path : Option String

/-- `ExcelLoader.__init__`. -/
def emptyLoader : Loader := ⟨Option.none, Option.none, Option.none⟩

/-- The message of `ensure_open`. -/
def notOpenMsg : String := "Workbook is not open. Call open(file_path) first."

/-- `ensure_open`. -/
def ensure_open (st : Loader) : Except Err Unit :=
  if st._wb.isNone || st._ws.isNone then
    Except.error (Err.validation notOpenMsg)
  else Except.ok ()

/-- `load_workbook`: raises unless the file exists and parses. -/
def loadWorkbook (fs : FS) (p : String) : Except Err Sheet :=
  match lookupFile fs p with
  | Option.none => Except.error (Err.osError ("load_workbook: " ++ p))
  | Option.some f =>
    if f.loadable then Except.ok f.content
    else Except.error (Err.osError ("load_workbook: " ++ p))

/-- `open(file_path)`: validate, bind the path, then load the workbook.
If loading raises, the path is already bound but the old handles remain —
exactly the partial-mutation behaviour of the Python assignments. -/
def loader_open (fs : FS) (st : Loader) (file_path : String) :
    Loader × Except Err Unit :=
  match validate_open_excel_path fs file_path with
  | Except.error e => (st, Except.error e)
  | Except.ok _ =>
    let st1 := { st with _path := Option.some file_path }
    match loadWorkbook fs file_path with
    | Except.error e => (st1, Except.error e)
    | Except.ok wb => ({ st1 with _wb := Option.some wb, _ws := Option.some wb },
        Except.ok ())

/-- `close()`. -/
def loader_close (_ : Loader) : Loader := emptyLoader

/-- `verify_template()` on the open handle. -/
def loader_verify_template (st : Loader) : Except Err Bool :=
  match st._wb, st._ws with
  | Option.some _, Option.some ws => Except.ok (verify_template ws)
  | _, _ => Except.error (Err.validation notOpenMsg)

/-- `save()`: flush the open workbook to its bound path. -/
def loader_save (fs : FS) (st : Loader) : Except Err FS :=
  if st._wb.isNone || st._ws.isNone then
    Except.error (Err.validation notOpenMsg)
  else
    match st._path with
    | Option.none =>
      Except.error (Err.validation "No backing path associated with this workbook.")
    | Option.some p =>
      match st._wb with
      | Option.some wb =>
        Except.ok (setFile fs p
          (match lookupFile fs p with
           | Option.some old => { old with content := wb }
           | Option.none => ⟨wb, 0, true, true⟩))
      | Option.none => Except.error (Err.validation notOpenMsg)

/-- `read_all()` on the open handle. -/
def loader_read_all (st : Loader) :
    Except Err (List (String × List (Nat × (Option Transaction × Option Transaction)))) :=
  match st._wb, st._ws with
  | Option.some _, Option.some ws => read_all ws
  | _, _ => Except.error (Err.validation notOpenMsg)

/-- `write_all(data)` on the open handle (mutates the in-memory
workbook). -/
def loader_write_all (st : Loader)
    (data : List (String × List (Nat × List (Option Transaction)))) :
    Except Err Loader :=
  match st._wb, st._ws with
  | Option.some _, Option.some ws =>
    (match write_all ws data with
     | Except.error e => Except.error e
     | Except.ok ws2 =>
       Except.ok { st with _wb := Option.some ws2, _ws := Option.some ws2 })
  | _, _ => Except.error (Err.validation notOpenMsg)

/-- `save_backup(backup_dir)`: flush, then copy the session file to a
timestamped name inside the backup directory (`ts` stands for the
`datetime.now()` timestamp). -/
def loader_save_backup (fs : FS) (st : Loader) (backup_dir ts : String) :
    Except Err (FS × String) :=
  if st._wb.isNone || st._ws.isNone then
    Except.error (Err.validation notOpenMsg)
  else
    match st._path with
    | Option.none =>
      Except.error (Err.validation "No backing path associated with this workbook.")
    | Option.some p =>
      match validate_backup_directory fs backup_dir with
      | Except.error e => Except.error e
      | Except.ok _ =>
        let backup_path := backup_dir ++ "/" ++ pathStem p ++ "_backup_" ++ ts ++ ".xlsx"
        match loader_save fs st with
        | Except.error e => Except.error e
        | Except.ok fs1 => Except.ok (copyFile fs1 p backup_path, backup_path)

/-- `prepare_fresh_session(template_path, storage_dir)`. -/
def prepare_fresh_session (st : Loader) (fs : FS) (template_path storage_dir : String) :
    Loader × FS × Except Err String :=
  match validate_fresh_session_paths fs template_path storage_dir with
  | Except.error e => (st, fs, Except.error e)
  | Except.ok _ =>
    let dst := storage_dir ++ "/user_data.xlsx"
    let fs1 := copyFile fs template_path dst
    match loader_open fs1 st dst with
    | (st1, Except.error e) => (st1, fs1, Except.error e)
    | (st1, Except.ok _) =>
      match loader_verify_template st1 with
      | Except.error e => (st1, fs1, Except.error e)
      | Except.ok true => (st1, fs1, Except.ok dst)
      | Except.ok false =>
        (loader_close st1, removeFile fs1 dst,
          Except.error (Err.validation "Copied session file failed template verification."))

/-- `validate_import_into_session` (duck-typed open check, upload path,
template signature). -/
def validate_import_into_session (st : Loader) (fs : FS) (source_path : String) :
    Except Err Unit :=
  if st._path = Option.none then
    Except.error (Err.validation "No workbook is open. Start a session or open a file first.")
  else
    match validate_user_upload_path fs source_path with
    | Except.error e => Except.error e
    | Except.ok _ => validate_template_signature fs source_path

/-- `import_into_session(source_path)`: overwrite the bound session file
with the validated upload and re-open it. -/
def import_into_session (st : Loader) (fs : FS) (source_path : String) :
    Loader × FS × Except Err Unit :=
  match st._path with
  | Option.none =>
    (st, fs, Except.error (Err.validation
      "No session file is open. Start a fresh session first."))
  | Option.some p =>
    match validate_upload_filesize fs source_path with
    | Except.error e => (st, fs, Except.error e)
    | Except.ok _ =>
      match validate_import_into_session st fs source_path with
      | Except.error e => (st, fs, Except.error e)
      | Except.ok _ =>
        match loader_save fs st with
        | Except.error e => (st, fs, Except.error e)
        | Except.ok fs1 =>
          let fs2 := copyFile fs1 source_path p
          match loader_open fs2 st p with
          | (st2, r) => (st2, fs2, r)

end ExcelLoader

/-! ## `managers/session_manager.py` -/

namespace SessionManager

/-- The orchestrator's state: the fixed filesystem layout plus the
in-memory `SessionState` (`session_path`, `mode`). -/
structure SM where
  template_path : String
  storage_dir : String
  backups_dir : String
  user_data_path : String
  state_path : Option String
  state_mode : Option String

/-- The constructor's path layout for a given project root. -/
def make (root : String) : SM :=
  { template_path := root ++ "/template/templateFile.xlsx"
    storage_dir := root ++ "/template/file_storage"
    backups_dir := root ++ "/template/file_storage/backups"
    user_data_path := root ++ "/template/file_storage/user_data.xlsx"
    state_path := Option.none
    state_mode := Option.none }

/-- `is_session_active`. -/
def is_session_active (sm : SM) (fs : FS) : Bool :=
  match sm.state_path with
  | Option.some p => fileExists fs p
  | Option.none => false

/-- The error of `require_active_session`. -/
def noSessionMsg : String := "No active session. Start a fresh or imported session first."

/-- `require_active_session`. -/
def require_active_session (sm : SM) (fs : FS) : Except Err Unit :=
  if ¬ is_session_active sm fs then Except.error (Err.validation noSessionMsg)
  else Except.ok ()

/-- The template-mismatch error raised by `read_all`/`write_all`. -/
def mismatchMsg : String := "Active session file no longer matches the template signature."

/-- `SessionManager.read_all`. -/
def read_all (sm : SM) (fs : FS) :
    Except Err (List (String × List (Nat × (Option Transaction × Option Transaction)))) :=
  match require_active_session sm fs with
  | Except.error e => Except.error e
  | Except.ok _ =>
    match sm.state_path with
    | Option.none => Except.error (Err.validation noSessionMsg)
    | Option.some p =>
      match ExcelLoader.loader_open fs ExcelLoader.emptyLoader p with
      | (_, Except.error e) => Except.error e
      | (st, Except.ok _) =>
        match ExcelLoader.loader_verify_template st with
        | Except.error e => Except.error e
        | Except.ok false => Except.error (Err.validation mismatchMsg)
        | Except.ok true => ExcelLoader.loader_read_all st

/-- `SessionManager.write_all`. -/
def write_all (sm : SM) (fs : FS)
    (data : List (String × List (Nat × List (Option Transaction)))) :
    Except Err FS :=
  match require_active_session sm fs with
  | Except.error e => Except.error e
  | Except.ok _ =>
    match sm.state_path with
    | Option.none => Except.error (Err.validation noSessionMsg)
    | Option.some p =>
      match ExcelLoader.loader_open fs ExcelLoader.emptyLoader p with
      | (_, Except.error e) => Except.error e
      | (st, Except.ok _) =>
        match ExcelLoader.loader_verify_template st with
        | Except.error e => Except.error e
        | Except.ok false => Except.error (Err.validation mismatchMsg)
        | Except.ok true =>
          match ExcelLoader.loader_write_all st data with
          | Except.error e => Except.error e
          | Except.ok st2 => ExcelLoader.loader_save fs st2

/-- `SessionManager.save`: opens a fresh handle and saves — note that,
unlike `read_all`/`write_all`, it performs no signature re-verification. -/
def save (sm : SM) (fs : FS) : Except Err FS :=
  match require_active_session sm fs with
  | Except.error e => Except.error e
  | Except.ok _ =>
    match sm.state_path with
    | Option.none => Except.error (Err.validation noSessionMsg)
    | Option.some p =>
      match ExcelLoader.loader_open fs ExcelLoader.emptyLoader p with
      | (_, Except.error e) => Except.error e
      | (st, Except.ok _) => ExcelLoader.loader_save fs st

/-- `SessionManager.save_backup`: also performs no signature
re-verification. -/
def save_backup (sm : SM) (fs : FS) (backup_dir ts : String) :
    Except Err (FS × String) :=
  match require_active_session sm fs with
  | Except.error e => Except.error e
  | Except.ok _ =>
    match validate_backup_directory fs backup_dir with
    | Except.error e => Except.error e
    | Except.ok _ =>
      match sm.state_path with
      | Option.none => Except.error (Err.validation noSessionMsg)
      | Option.some p =>
        match ExcelLoader.loader_open fs ExcelLoader.emptyLoader p with
        | (_, Except.error e) => Except.error e
        | (st, Except.ok _) => ExcelLoader.loader_save_backup fs st backup_dir ts

/-- Does `name` live directly inside `dir`?  Returns its base name. -/
def baseInDir (dir name : String) : Option String :=
  let pre := (dir ++ "/").data
  if isPrefixL pre name.data then
    let rest := name.data.drop pre.length
    if rest.contains '/' then Option.none else Option.some ⟨rest⟩
  else Option.none

/-- The regex `^<pre>_(\d+)\.xlsx$` (case-insensitive): the numeric
suffix of a backup file name. -/
def parse_backup_suffix (pre base : String) : Option Nat :=
  let lb := (pyLower base).data
  let lp := (pyLower pre).data ++ ['_']
  if isPrefixL lp lb then
    let rest := lb.drop lp.length
    if isSuffixL ".xlsx".data rest then
      let digs := rest.take (rest.length - 5)
      if digs ≠ [] ∧ digs.all isDig then Option.some (digitsVal digs) else Option.none
    else Option.none
  else Option.none

/-- `unique_backup_name`: scan `backups/*.xlsx` (glob is case-sensitive),
take the highest numeric suffix matching `prefix_<N>.xlsx`
(case-insensitive), and use `N+1`. -/
def unique_backup_name (sm : SM) (fs : FS) (pre : String) : String :=
  let ns := fs.files.filterMap (fun nf =>
    match baseInDir sm.backups_dir nf.1 with
    | Option.none => Option.none
    | Option.some base =>
      if isSuffixL ".xlsx".data base.data then parse_backup_suffix pre base
      else Option.none)
  let max_n := ns.foldl (fun acc n => if acc < n then n else acc) 0
  sm.backups_dir ++ "/" ++ pre ++ "_" ++ natStr (max_n + 1) ++ ".xlsx"

/-- `archive_current_user_data`. -/
def archive_current_user_data (sm : SM) (fs : FS) (label : String) :
    Except Err (FS × String) :=
  if ¬ fileExists fs sm.user_data_path then
    Except.error (Err.validation "No session file found to archive.")
  else
    let archived := unique_backup_name sm fs ("User_Data_" ++ label)
    Except.ok (moveFile fs sm.user_data_path archived, archived)

/-- `archive_if_stale_exists`: archive a leftover session file; on
success the in-memory state is reset; the exception fallback renames the
file without resetting the state. -/
def archive_if_stale_exists (sm : SM) (fs : FS) (label : String) : SM × FS :=
  if fileExists fs sm.user_data_path then
    match archive_current_user_data sm fs label with
    | Except.ok (fs2, _) =>
      ({ sm with state_path := Option.none, state_mode := Option.none }, fs2)
    | Except.error _ =>
      let fallback := unique_backup_name sm fs ("User_Data_" ++ label)
      (sm, moveFile fs sm.user_data_path fallback)
  else (sm, fs)

/-- `ensure_base_paths` (the `mkdir` of the backups directory has no
observable effect in the model). -/
def ensure_base_paths (sm : SM) (fs : FS) : Except Err Unit :=
  validate_fresh_session_paths fs sm.template_path sm.storage_dir

/-- `start_imported_session(source_path)`: the upload is fully validated
(path, size, signature) before any session state is touched. -/
def start_imported_session (sm : SM) (fs : FS) (source_path : String) :
    SM × FS × Except Err String :=
  match ensure_base_paths sm fs with
  | Except.error e => (sm, fs, Except.error e)
  | Except.ok _ =>
    match validate_user_upload_path fs source_path with
    | Except.error e => (sm, fs, Except.error e)
    | Except.ok _ =>
      match validate_upload_filesize fs source_path with
      | Except.error e => (sm, fs, Except.error e)
      | Except.ok _ =>
        match validate_template_signature fs source_path with
        | Except.error e => (sm, fs, Except.error e)
        | Except.ok _ =>
          match archive_if_stale_exists sm fs "Stale" with
          | (sm1, fs1) =>
            match ExcelLoader.prepare_fresh_session ExcelLoader.emptyLoader fs1
                sm1.template_path sm1.storage_dir with
            | (_, fs2, Except.error e) => (sm1, fs2, Except.error e)
            | (st1, fs2, Except.ok session_path) =>
              match ExcelLoader.import_into_session st1 fs2 source_path with
              | (_, fs3, Except.error e) => (sm1, fs3, Except.error e)
              | (_, fs3, Except.ok _) =>
                ({ sm1 with state_path := Option.some session_path
                            state_mode := Option.some "IMPORTED" }, fs3,
                  Except.ok session_path)

/-- `end_session_and_archive`. -/
def end_session_and_archive (sm : SM) (fs : FS) :
    SM × FS × Except Err (Option String) :=
  if ¬ is_session_active sm fs then (sm, fs, Except.ok Option.none)
  else
    let label :=
      if sm.state_mode = Option.some "FRESH" then "Fresh"
      else if sm.state_mode = Option.some "IMPORTED" then "Imported"
      else "Prev"
    match archive_current_user_data sm fs label with
    | Except.error e => (sm, fs, Except.error e)
    | Except.ok (fs2, archived) =>
      ({ sm with state_path := Option.none, state_mode := Option.none }, fs2,
        Except.ok (Option.some archived))

end SessionManager

/-! ## `managers/analytic_manager.py` (read-only aggregation) -/

namespace AnalyticManager

/-- `_iter_all_transactions`: every transaction of the whole-year working
set (the shape returned by `ExcelLoader.read_all`), in month → day → slot
order, skipping empty slots and records whose kind is not
`EXPENSE`/`INCOME`. -/
def iter_all_transactions
    (data : List (String × List (Nat × (Option Transaction × Option Transaction)))) :
    List Transaction :=
  data.flatMap (fun md =>
    md.2.flatMap (fun ds =>
      [ds.2.1, ds.2.2].filterMap (fun o =>
        match o with
        | Option.none => Option.none
        | Option.some tx =>
          if (["EXPENSE", "INCOME"] : List String).contains (pyUpper (pyStrip tx.type))
          then Option.some tx
          else Option.none)))

/-- The rollup key of `get_category_totals_year`:
`(t.category or "").strip().upper() or "MISCELLANEOUS"`. -/
def category_key (t : Transaction) : String :=
  let k := pyUpper (pyStrip t.category)
  if k = "" then "MISCELLANEOUS" else k

/-- `totals[key] = totals.get(key, 0.0) + amount` on an insertion-ordered
dict. -/
def dict_add (totals : List (String × Rat)) (key : String) (amt : Rat) :
    List (String × Rat) :=
  if (List.lookup key totals).isSome then
    totals.map (fun p => if p.1 = key then (p.1, p.2 + amt) else p)
  else totals ++ [(key, amt)]

/-- One loop iteration of `get_category_totals_year`. -/
def category_step (totals : List (String × Rat)) (t : Transaction) :
    List (String × Rat) :=
  if pyUpper (pyStrip t.type) ≠ "EXPENSE" then totals
  else dict_add totals (category_key t) t.amount

/-- `get_category_totals_year`: total EXPENSE by category over the whole
year. -/
def get_category_totals_year
    (data : List (String × List (Nat × (Option Transaction × Option Transaction)))) :
    List (String × Rat) :=
  (iter_all_transactions data).foldl category_step []

end AnalyticManager

/-! ### Concrete sample sheets (used by witnesses) -/

/-- A 500 income record (for the C7 example). -/
def sampleIncomeTx : Transaction :=
  { date := "2025-01-01", day := "", category := "SALARY", amount := 500,
    type := "INCOME", description := "" }

/-- A 100 expense record in category `FOOD` (for the C7 example). -/
def sampleExpenseTx : Transaction :=
  { date := "2025-01-01", day := "", category := "FOOD", amount := 100,
    type := "EXPENSE", description := "" }

/-- An expense record with a blank category (for the C7 witness). -/
def sampleBlankCatTx : Transaction :=
  { date := "2025-01-01", day := "", category := "", amount := 25,
    type := "EXPENSE", description := "" }

/-- A year working set holding one INCOME of 500 and one EXPENSE of 100. -/
def sampleYearData :
    List (String × List (Nat × (Option Transaction × Option Transaction))) :=
  [("JANUARY", [(1, (Option.some sampleIncomeTx, Option.some sampleExpenseTx))])]


/-- A sheet whose only content is a `" none "` type cell at row 10. -/
def sampleNoneRowSheet : Sheet :=
  fun r c => if r = 10 ∧ c = 10 then CellVal.s " none " else CellVal.none

/-- A concrete, already-normalized transaction used by witnesses. -/
def sampleTx : Transaction :=
  { date := "2025-01-07", day := "Tue", category := "FOOD", amount := 100,
    type := "INCOME", description := "groceries" }

/-- An otherwise empty sheet with the year cell (`B6`) set. -/
def yearOnlySheet (y : Int) : Sheet :=
  fun r c => if r = 6 ∧ c = 2 then CellVal.i y else CellVal.none

/-- An otherwise empty sheet with a valid template marker and the year
cell set. -/
def markedYearSheet (y : Int) : Sheet :=
  fun r c =>
    if r = 1 ∧ c = 1 then CellVal.s "MM_TMU"
    else if r = 6 ∧ c = 2 then CellVal.i y
    else CellVal.none

namespace SessionManager

/-- The numeric suffix `unique_backup_name` chooses: the highest existing
suffix plus one (same scan as in `unique_backup_name`). -/
def backup_next_n (sm : SM) (fs : FS) (pre : String) : Nat :=
  (fs.files.filterMap (fun nf =>
    match baseInDir sm.backups_dir nf.1 with
    | Option.none => Option.none
    | Option.some base =>
      if isSuffixL ".xlsx".data base.data then parse_backup_suffix pre base
      else Option.none)).foldl (fun acc n => if acc < n then n else acc) 0 + 1

end SessionManager

/-- The adapter states reachable through the public `ExcelLoader`
lifecycle operations, from a freshly constructed loader. -/
inductive LoaderReachable : ExcelLoader.Loader → Prop
  | init : LoaderReachable ExcelLoader.emptyLoader
  | openStep (fs : FS) (st : ExcelLoader.Loader) (p : String) :
      LoaderReachable st → LoaderReachable (ExcelLoader.loader_open fs st p).1
  | closeStep (st : ExcelLoader.Loader) :
      LoaderReachable st → LoaderReachable (ExcelLoader.loader_close st)
  | writeAllStep (st : ExcelLoader.Loader)
      (data : List (String × List (Nat × List (Option Transaction))))
      (st2 : ExcelLoader.Loader) :
      LoaderReachable st → ExcelLoader.loader_write_all st data = Except.ok st2 →
      LoaderReachable st2
  | prepareStep (st : ExcelLoader.Loader) (fs : FS) (tpl sd : String) :
      LoaderReachable st →
      LoaderReachable (ExcelLoader.prepare_fresh_session st fs tpl sd).1
  | importStep (st : ExcelLoader.Loader) (fs : FS) (src : String) :
      LoaderReachable st →
      LoaderReachable (ExcelLoader.import_into_session st fs src).1

/-- The handle/path invariant: an open workbook or worksheet handle
implies a bound backing path. -/
def LoaderInv (st : ExcelLoader.Loader) : Prop :=
  (st._wb.isSome || st._ws.isSome) = true → st._path.isSome = true

/-! ### Concrete session-lifecycle scenarios -/

/-- A worksheet whose `A1` marker was corrupted out-of-band. -/
def corruptSheet : Sheet := fun _ _ => CellVal.s "CORRUPT"

/-- An orchestrator rooted at `R` with an active `FRESH` session. -/
def smActive : SessionManager.SM :=
  { SessionManager.make "R" with
      state_path := Option.some "R/template/file_storage/user_data.xlsx"
      state_mode := Option.some "FRESH" }

/-- A filesystem whose active session file lost its template marker. -/
def fsCorrupt : FS :=
  { files := [("R/template/file_storage/user_data.xlsx",
      ⟨corruptSheet, 4096, true, true⟩)]
    writableDirs := ["R/template/file_storage", "R/template/file_storage/backups"] }

/-- An orchestrator rooted at `R` with no active session. -/
def smFresh : SessionManager.SM := SessionManager.make "R"

/-- A filesystem holding a valid template and an upload whose marker
fails signature verification. -/
def fsUpload : FS :=
  { files := [("R/template/templateFile.xlsx",
      ⟨markedYearSheet 2025, 4096, true, true⟩),
      ("up.xlsx", ⟨corruptSheet, 4096, true, true⟩)]
    writableDirs := ["R/template/file_storage"] }

/-- An arbitrary backup file on disk. -/
def backupRec : FileRec := ⟨corruptSheet, 4096, true, true⟩

/-- A filesystem with an active session file and existing backups
`User_Data_Fresh_1.xlsx` and `User_Data_Fresh_3.xlsx`. -/
def fsBackups : FS :=
  { files := [("R/template/file_storage/user_data.xlsx",
      ⟨markedYearSheet 2025, 4096, true, true⟩),
      ("R/template/file_storage/backups/User_Data_Fresh_1.xlsx", backupRec),
      ("R/template/file_storage/backups/User_Data_Fresh_3.xlsx", backupRec)]
    writableDirs := ["R/template/file_storage", "R/template/file_storage/backups"] }

/-! ### Basic lemmas about the string-builtin models -/

theorem dropLeadWS_eq_self {l : List Char} (h : ∀ c ∈ l, pyWS c = false) :
    dropLeadWS l = l := by
  cases l with
  | nil => rfl
  | cons c r =>
    simp only [dropLeadWS]
    rw [h c (by simp)]
    simp

theorem stripL_eq_self {l : List Char} (h : ∀ c ∈ l, pyWS c = false) :
    stripL l = l := by
  unfold stripL
  rw [dropLeadWS_eq_self h, dropLeadWS_eq_self (by intro c hc; exact h c (List.mem_reverse.mp hc))]
  simp

theorem pyStrip_eq_self {s : String} (h : ∀ c ∈ s.data, pyWS c = false) :
    pyStrip s = s := by
  unfold pyStrip
  rw [stripL_eq_self h]

theorem digitChar_no_ws {d : Nat} : pyWS (digitChar d) = false := by
  unfold digitChar
  split <;> decide

theorem digitChar_isDig {d : Nat} : isDig (digitChar d) = true := by
  unfold digitChar
  split <;> decide

theorem digitChar_toNat {d : Nat} (h : d ≤ 9) : (digitChar d).toNat = 48 + d := by
  interval_cases d <;> decide

theorem natCharsAux_congr : ∀ {f1 f2 n : Nat}, n < f1 → n < f2 →
    natCharsAux f1 n = natCharsAux f2 n := by
  intro f1
  induction f1 with
  | zero => intro f2 n h1 _; omega
  | succ f ih =>
    intro f2 n h1 h2
    cases f2 with
    | zero => omega
    | succ g =>
      simp only [natCharsAux]
      split
      · rfl
      · rename_i hge
        have hlt : n / 10 < n := Nat.div_lt_self (by omega) (by omega)
        rw [@ih g (n / 10) (by omega) (by omega)]

/-- The recursive unfolding of `natChars`. -/
theorem natChars_eq (n : Nat) : natChars n = if n < 10 then [digitChar n]
    else natChars (n / 10) ++ [digitChar (n % 10)] := by
  unfold natChars
  simp only [natCharsAux]
  split
  · rfl
  · rename_i h
    have hlt : n / 10 < n := Nat.div_lt_self (by omega) (by omega)
    rw [@natCharsAux_congr n (n / 10 + 1) (n / 10) (by omega) (by omega)]
    rfl

theorem natChars_ne_nil {n : Nat} : natChars n ≠ [] := by
  rw [natChars_eq]
  split
  · simp
  · simp

theorem natChars_all_dig {n : Nat} : ∀ c ∈ natChars n, isDig c = true := by
  induction n using Nat.strong_induction_on with
  | _ n ih =>
    rw [natChars_eq]
    split
    · intro c hc
      simp at hc
      subst hc
      exact digitChar_isDig
    · intro c hc
      rcases List.mem_append.mp hc with h1 | h1
      · exact ih (n / 10) (Nat.div_lt_self (by omega) (by omega)) c h1
      · simp at h1
        subst h1
        exact digitChar_isDig

theorem isDig_no_ws {c : Char} (h : isDig c = true) : pyWS c = false := by
  simp [isDig, List.contains] at h
  rcases h with h | h | h | h | h | h | h | h | h | h <;> subst h <;> decide

theorem digitsVal_append_singleton (l : List Char) (c : Char) :
    digitsVal (l ++ [c]) = 10 * digitsVal l + (c.toNat - 48) := by
  simp [digitsVal, List.foldl_append]

theorem digitsVal_natChars {n : Nat} : digitsVal (natChars n) = n := by
  induction n using Nat.strong_induction_on with
  | _ n ih =>
    rw [natChars_eq]
    split
    · rename_i h
      simp only [digitsVal, List.foldl]
      rw [digitChar_toNat (by omega)]
      omega
    · rename_i h
      rw [digitsVal_append_singleton,
        ih (n / 10) (Nat.div_lt_self (by omega) (by omega)),
        digitChar_toNat (by omega)]
      omega

theorem digitsVal_padZeros {w : Nat} {l : List Char} :
    digitsVal (padZeros w l) = digitsVal l := by
  unfold padZeros digitsVal
  rw [List.foldl_append]
  have : ∀ k, List.foldl (fun a c => 10 * a + (c.toNat - 48)) 0 (List.replicate k '0') = 0 := by
    intro k
    induction k with
    | zero => rfl
    | succ k ih => simp [List.replicate_succ, List.foldl_cons]; exact ih
  rw [this]

theorem padZeros_all_dig {w : Nat} {l : List Char} (h : ∀ c ∈ l, isDig c = true) :
    ∀ c ∈ padZeros w l, isDig c = true := by
  intro c hc
  rcases List.mem_append.mp hc with h1 | h1
  · have := List.eq_of_mem_replicate h1
    subst this
    decide
  · exact h c h1

theorem padZeros_ne_nil {w : Nat} {l : List Char} (h : l ≠ []) : padZeros w l ≠ [] := by
  unfold padZeros
  simp [h]

theorem pySign_of_dig {l : List Char} (h : ∀ c ∈ l, isDig c = true) :
    pySign l = (false, l) := by
  cases l with
  | nil => rfl
  | cons c r =>
    have hc := h c (by simp)
    simp [isDig, List.contains] at hc
    rcases hc with h1 | h1 | h1 | h1 | h1 | h1 | h1 | h1 | h1 | h1 <;> subst h1 <;> rfl

theorem splitOnCharL_sepfree {sep : Char} {l : List Char}
    (h : ∀ c ∈ l, c ≠ sep) : splitOnCharL sep l = [l] := by
  induction l with
  | nil => rfl
  | cons c r ih =>
    have hr : ∀ x ∈ r, x ≠ sep := fun x hx => h x (by simp [hx])
    simp only [splitOnCharL, ih hr]
    rw [if_neg (h c (by simp))]

/-- The split of a list of values never comes back empty. -/
theorem splitOnCharL_ne_nil {sep : Char} {l : List Char} :
    splitOnCharL sep l ≠ [] := by
  cases l with
  | nil => simp [splitOnCharL]
  | cons c r =>
    simp only [splitOnCharL]
    cases splitOnCharL sep r with
    | nil => split <;> split <;> simp
    | cons h t => split <;> split <;> simp

theorem splitOnCharL_append_sep {sep : Char} {xs ys : List Char}
    (h : ∀ c ∈ xs, c ≠ sep) :
    splitOnCharL sep (xs ++ sep :: ys) = xs :: splitOnCharL sep ys := by
  induction xs with
  | nil =>
    simp only [List.nil_append, splitOnCharL]
    cases hys : splitOnCharL sep ys with
    | nil => exact absurd hys splitOnCharL_ne_nil
    | cons a b => simp
  | cons c r ih =>
    have hr : ∀ x ∈ r, x ≠ sep := fun x hx => h x (by simp [hx])
    simp only [List.cons_append, splitOnCharL]
    rw [show r.append (sep :: ys) = r ++ sep :: ys from rfl, ih hr]
    dsimp only
    rw [if_neg (h c (by simp))]

/-- `int()` of zero-padded decimal digits recovers the value. -/
theorem pyIntOfString_padZeros {w n : Nat} :
    pyIntOfString ⟨padZeros w (natChars n)⟩ = some n := by
  unfold pyIntOfString
  have hdig : ∀ c ∈ padZeros w (natChars n), isDig c = true :=
    padZeros_all_dig (fun c hc => natChars_all_dig c hc)
  have hall : (padZeros w (natChars n)).all isDig = true := List.all_eq_true.mpr hdig
  rw [stripL_eq_self (fun c hc => isDig_no_ws (hdig c hc))]
  rw [pySign_of_dig hdig]
  simp [hall, padZeros_ne_nil (natChars_ne_nil (n := n)), digitsVal_padZeros,
    digitsVal_natChars]

/-- `float()` of zero-padded decimal digits recovers the value. -/
theorem pyFloatOfString_padZeros {w n : Nat} :
    pyFloatOfString ⟨padZeros w (natChars n)⟩ = some (n : Rat) := by
  unfold pyFloatOfString
  have hdig : ∀ c ∈ padZeros w (natChars n), isDig c = true :=
    padZeros_all_dig (fun c hc => natChars_all_dig c hc)
  have hall : (padZeros w (natChars n)).all isDig = true := List.all_eq_true.mpr hdig
  rw [stripL_eq_self (fun c hc => isDig_no_ws (hdig c hc))]
  rw [pySign_of_dig hdig]
  have hnodot : ∀ c ∈ padZeros w (natChars n), c ≠ '.' := by
    intro c hc he
    have := hdig c hc
    subst he
    simp [isDig, List.contains] at this
  simp only
  rw [splitOnCharL_sepfree hnodot]
  simp [hall, padZeros_ne_nil (natChars_ne_nil (n := n)), digitsVal_padZeros,
    digitsVal_natChars]

/-- `float()` of plain decimal digits recovers the value
(`natChars` is `padZeros 0`-free). -/
theorem pyFloatOfString_natChars {n : Nat} :
    pyFloatOfString (natStr n) = some (n : Rat) := by
  have h := pyFloatOfString_padZeros (w := 0) (n := n)
  simpa [padZeros, natStr] using h

theorem pyIntOfString_natChars {n : Nat} :
    pyIntOfString (natStr n) = some (n : Int) := by
  have h := pyIntOfString_padZeros (w := 0) (n := n)
  simpa [padZeros, natStr] using h

theorem getCell_setCell (ws : Sheet) (r c : Nat) (v : CellVal) (r' c' : Nat) :
    getCell (setCell ws r c v) r' c'
      = if r' = r ∧ c' = c then v else getCell ws r' c' := rfl

/-- If `f` succeeds on every element then `exceptMapM` succeeds, and the
result is pointwise `f` of the input. -/
theorem exceptMapM_ok_of_forall_exists {f : α → Except Err β} {xs : List α}
    (h : ∀ x ∈ xs, ∃ y, f x = Except.ok y) :
    ∃ ys, exceptMapM f xs = Except.ok ys ∧ ys.length = xs.length ∧
      ∀ i (hx : i < xs.length) (hy : i < ys.length),
        f (xs.get ⟨i, hx⟩) = Except.ok (ys.get ⟨i, hy⟩) := by
  induction xs with
  | nil => exact ⟨[], rfl, rfl, fun i hx _ => absurd hx (by simp)⟩
  | cons x xs ih =>
    obtain ⟨y, hy⟩ := h x (by simp)
    obtain ⟨ys, h1, h2, h3⟩ := ih (fun z hz => h z (by simp [hz]))
    refine ⟨y :: ys, ?_, by simp [h2], ?_⟩
    · simp only [exceptMapM, hy, h1]
    · intro i hx hy2
      cases i with
      | zero => simpa using hy
      | succ n => simpa using h3 n (by simpa using hx) (by simpa using hy2)

/-- `validate_month_name` only succeeds on canonical month keys. -/
theorem validate_month_name_contains {m mk : String}
    (h : validate_month_name m = Except.ok mk) :
    MONTH_KEYS.contains mk = true := by
  simp only [validate_month_name] at h
  split at h
  · cases h
  · split at h
    · rename_i hc
      cases h
      exact hc
    · cases h

/-- Facts about every canonical month key: its anchor row (≥ 8), its
month number (1–12), its day count via `get_days_in_month`, and that the
key is strip/upper-normal. -/
theorem month_facts {mk : String} (hc : MONTH_KEYS.contains mk = true) (year : Int) :
    ∃ anchor mnum,
      ExcelLoader.get_anchor_row mk = Except.ok anchor ∧ 8 ≤ anchor ∧
      ExcelLoader.month_to_number mk = Except.ok mnum ∧ 1 ≤ mnum ∧ mnum ≤ 12 ∧
      GeneralHelper.get_days_in_month mk year
        = Except.ok (daysInMonthNum mnum year) ∧
      daysInMonthNum mnum year ≤ 31 ∧
      pyStrip mk = mk ∧ pyUpper mk = mk := by
  simp [MONTH_KEYS, List.contains] at hc
  rcases hc with h|h|h|h|h|h|h|h|h|h|h|h <;> subst h
  · exact ⟨8, 1, by decide, by decide, by decide, by decide, by decide, by rfl,
      by norm_num [daysInMonthNum], by decide, by decide⟩
  · refine ⟨72, 2, by decide, by decide, by decide, by decide, by decide, ?_, ?_,
      by decide, by decide⟩
    · have hm : pyLower (pyStrip "FEBRUARY") = "february" := by decide
      have hl : List.lookup "february" GeneralHelper.month_days = some 28 := by decide
      simp only [GeneralHelper.get_days_in_month, hm, hl]
      norm_num [daysInMonthNum]
    · simp only [daysInMonthNum]
      split <;> norm_num
  · exact ⟨132, 3, by decide, by decide, by decide, by decide, by decide, by rfl,
      by norm_num [daysInMonthNum], by decide, by decide⟩
  · exact ⟨196, 4, by decide, by decide, by decide, by decide, by decide, by rfl,
      by norm_num [daysInMonthNum], by decide, by decide⟩
  · exact ⟨258, 5, by decide, by decide, by decide, by decide, by decide, by rfl,
      by norm_num [daysInMonthNum], by decide, by decide⟩
  · exact ⟨322, 6, by decide, by decide, by decide, by decide, by decide, by rfl,
      by norm_num [daysInMonthNum], by decide, by decide⟩
  · exact ⟨384, 7, by decide, by decide, by decide, by decide, by decide, by rfl,
      by norm_num [daysInMonthNum], by decide, by decide⟩
  · exact ⟨448, 8, by decide, by decide, by decide, by decide, by decide, by rfl,
      by norm_num [daysInMonthNum], by decide, by decide⟩
  · exact ⟨512, 9, by decide, by decide, by decide, by decide, by decide, by rfl,
      by norm_num [daysInMonthNum], by decide, by decide⟩
  · exact ⟨574, 10, by decide, by decide, by decide, by decide, by decide, by rfl,
      by norm_num [daysInMonthNum], by decide, by decide⟩
  · exact ⟨638, 11, by decide, by decide, by decide, by decide, by decide, by rfl,
      by norm_num [daysInMonthNum], by decide, by decide⟩
  · exact ⟨700, 12, by decide, by decide, by decide, by decide, by decide, by rfl,
      by norm_num [daysInMonthNum], by decide, by decide⟩

/-- `get_year` only looks at the year cell. -/
theorem get_year_congr {ws2 ws : Sheet}
    (h : getCell ws2 ExcelLoader.YEAR_ROW ExcelLoader.YEAR_COL
      = getCell ws ExcelLoader.YEAR_ROW ExcelLoader.YEAR_COL) :
    ExcelLoader.get_year ws2 = ExcelLoader.get_year ws := by
  unfold ExcelLoader.get_year
  rw [h]

/-- A row whose type cell is the `NONE` marker parses to an empty slot. -/
theorem read_row_of_type_none {mk : String} {year : Int} {day row : Nat} {ws : Sheet}
    (h : getCell ws row ExcelLoader.COL_TYPE = CellVal.s "NONE") :
    ExcelLoader.read_row_as_transaction mk year day row ws = Except.ok Option.none := by
  have hs : ExcelLoader.safe_cell_str ws row ExcelLoader.COL_TYPE = "NONE" := by
    unfold ExcelLoader.safe_cell_str
    rw [h]
    rfl
  simp only [ExcelLoader.read_row_as_transaction, hs]
  rw [if_pos (Or.inl (by decide))]

/-- With a valid month key, `read_row_as_transaction` always succeeds. -/
theorem read_row_ok_of_month {mk : String} {mnum : Nat} {year : Int} {day row : Nat}
    {ws : Sheet} (hmn : ExcelLoader.month_to_number mk = Except.ok mnum) :
    ∃ o, ExcelLoader.read_row_as_transaction mk year day row ws = Except.ok o := by
  simp only [ExcelLoader.read_row_as_transaction, ExcelLoader.date_to_string, hmn]
  split
  · exact ⟨_, rfl⟩
  · split
    · exact ⟨_, rfl⟩
    · exact ⟨_, rfl⟩

theorem isDig_ne_dash {c : Char} (h : isDig c = true) : c ≠ '-' := by
  simp [isDig, List.contains] at h
  rcases h with h|h|h|h|h|h|h|h|h|h <;> subst h <;> decide

theorem natChars_length_le {n k : Nat} (h : n < 10 ^ k) (hk : 1 ≤ k) :
    (natChars n).length ≤ k := by
  induction n using Nat.strong_induction_on generalizing k with
  | _ n ih =>
    rw [natChars_eq]
    split
    · simp only [List.length_singleton]
      omega
    · rename_i hn
      simp only [List.length_append, List.length_singleton]
      have hk2 : 2 ≤ k := by
        by_contra hc
        have : k = 1 := by omega
        subst this
        simp at h
        omega
      have hdiv : n / 10 < 10 ^ (k - 1) := by
        have h10 : 10 ^ k = 10 ^ (k - 1) * 10 := by
          rw [← pow_succ]
          congr 1
          omega
        rw [h10] at h
        omega
      have := ih (n / 10) (Nat.div_lt_self (by omega) (by omega)) hdiv (by omega)
      omega

theorem padZeros_length {w : Nat} {l : List Char} (h : l.length ≤ w) :
    (padZeros w l).length = w := by
  simp [padZeros]
  omega

theorem pyFmtZero_nonneg {w : Nat} {i : Int} (h : 0 ≤ i) :
    pyFmtZero w i = ⟨padZeros w (natChars i.toNat)⟩ := by
  unfold pyFmtZero
  rw [if_neg (by omega)]

/-- Character decomposition of a formatted `YYYY-MM-DD` string. -/
theorem date_string_num_data {year : Int} {mnum : Nat} {dayn : Int}
    (hy : 0 ≤ year) (hd : 0 ≤ dayn) :
    (ExcelLoader.date_string_num year mnum dayn).data
      = padZeros 4 (natChars year.toNat) ++
        '-' :: (padZeros 2 (natChars mnum) ++
          '-' :: padZeros 2 (natChars dayn.toNat)) := by
  unfold ExcelLoader.date_string_num
  rw [pyFmtZero_nonneg hy, pyFmtZero_nonneg (by positivity : (0:Int) ≤ (mnum : Int)),
    pyFmtZero_nonneg hd]
  simp [String.data_append, Int.toNat_natCast]

theorem date_string_num_no_ws {year : Int} {mnum : Nat} {dayn : Int}
    (hy : 0 ≤ year) (hd : 0 ≤ dayn) :
    ∀ c ∈ (ExcelLoader.date_string_num year mnum dayn).data, pyWS c = false := by
  rw [date_string_num_data hy hd]
  intro c hc
  have hdig : ∀ x : Nat, ∀ ch ∈ padZeros 2 (natChars x) ++ [], True := fun _ _ _ => trivial
  rcases List.mem_append.mp hc with h1 | h1
  · exact isDig_no_ws (padZeros_all_dig (fun ch hch => natChars_all_dig ch hch) c h1)
  · rcases List.mem_cons.mp h1 with h2 | h2
    · subst h2; decide
    · rcases List.mem_append.mp h2 with h3 | h3
      · exact isDig_no_ws (padZeros_all_dig (fun ch hch => natChars_all_dig ch hch) c h3)
      · rcases List.mem_cons.mp h3 with h4 | h4
        · subst h4; decide
        · exact isDig_no_ws (padZeros_all_dig (fun ch hch => natChars_all_dig ch hch) c h4)

theorem splitOnCharL_date_string {year : Int} {mnum : Nat} {dayn : Int}
    (hy : 0 ≤ year) (hd : 0 ≤ dayn) :
    splitOnCharL '-' (ExcelLoader.date_string_num year mnum dayn).data
      = [padZeros 4 (natChars year.toNat), padZeros 2 (natChars mnum),
         padZeros 2 (natChars dayn.toNat)] := by
  rw [date_string_num_data hy hd]
  have hnd4 : ∀ c ∈ padZeros 4 (natChars year.toNat), c ≠ '-' :=
    fun c hc => isDig_ne_dash (padZeros_all_dig (fun ch hch => natChars_all_dig ch hch) c hc)
  have hnd2 : ∀ c ∈ padZeros 2 (natChars mnum), c ≠ '-' :=
    fun c hc => isDig_ne_dash (padZeros_all_dig (fun ch hch => natChars_all_dig ch hch) c hc)
  have hnd2' : ∀ c ∈ padZeros 2 (natChars dayn.toNat), c ≠ '-' :=
    fun c hc => isDig_ne_dash (padZeros_all_dig (fun ch hch => natChars_all_dig ch hch) c hc)
  rw [splitOnCharL_append_sep hnd4, splitOnCharL_append_sep hnd2,
    splitOnCharL_sepfree hnd2']

/-- `extract_day` recovers the day from a canonical formatted date. -/
theorem extract_day_date_string {year : Int} {mnum dd : Nat} (hy : 0 ≤ year) :
    ExcelLoader.extract_day (ExcelLoader.date_string_num year mnum (dd : Int))
      = (dd : Int) := by
  unfold ExcelLoader.extract_day
  rw [splitOnCharL_date_string hy (by positivity)]
  simp only [List.getLast?]
  have := pyIntOfString_padZeros (w := 2) (n := ((dd : Int)).toNat)
  simp only [Int.toNat_natCast] at this
  simp [this]

theorem daysInMonthNum_le_31 {m : Nat} {year : Int} : daysInMonthNum m year ≤ 31 := by
  unfold daysInMonthNum
  split <;> first | omega | (split <;> omega)

/-- `strptime` accepts a canonical formatted date and recovers its
components. -/
theorem strptime_date_string {year : Int} {mnum dd : Nat}
    (hy1 : 1 ≤ year) (hy2 : year ≤ 9999) (hm1 : 1 ≤ mnum) (hm2 : mnum ≤ 12)
    (hd1 : 1 ≤ dd) (hd2 : dd ≤ daysInMonthNum mnum year) :
    pyStrptimeYMD (ExcelLoader.date_string_num year mnum (dd : Int))
      = some (year, mnum, dd) := by
  unfold pyStrptimeYMD
  rw [splitOnCharL_date_string (by omega) (by positivity)]
  dsimp only
  have hylen : (natChars year.toNat).length ≤ 4 :=
    natChars_length_le (by omega) (by omega)
  have hmlen : (natChars mnum).length ≤ 2 :=
    natChars_length_le (by omega) (by omega)
  have hdd99 : dd ≤ 99 := le_trans hd2 (le_trans daysInMonthNum_le_31 (by omega))
  have hdlen : ((dd : Int).toNat |> natChars).length ≤ 2 := by
    simp only [Int.toNat_natCast]
    exact natChars_length_le (by omega) (by omega)
  have h4 : (padZeros 4 (natChars year.toNat)).length = 4 := padZeros_length hylen
  have h2m : (padZeros 2 (natChars mnum)).length = 2 := padZeros_length hmlen
  have h2d : (padZeros 2 (natChars (dd : Int).toNat)).length = 2 := padZeros_length hdlen
  rw [if_pos ⟨h4,
    List.all_eq_true.mpr (padZeros_all_dig (fun c hc => natChars_all_dig c hc)),
    by omega, by omega,
    List.all_eq_true.mpr (padZeros_all_dig (fun c hc => natChars_all_dig c hc)),
    by omega, by omega,
    List.all_eq_true.mpr (padZeros_all_dig (fun c hc => natChars_all_dig c hc))⟩]
  simp only [digitsVal_padZeros, digitsVal_natChars, Int.toNat_natCast]
  rw [if_pos (by
    refine ⟨by omega, by omega, by omega, by omega, ?_⟩
    rw [Int.toNat_of_nonneg (by omega)]
    exact hd2)]
  rw [Int.toNat_of_nonneg (by omega)]

theorem ratTrunc_natCast {n : Nat} : ratTrunc ((n : Nat) : Rat) = (n : Int) := by
  unfold ratTrunc
  simp [Rat.num_natCast, Rat.den_natCast, Int.tdiv]

theorem natStr_ne_empty {n : Nat} : natStr n ≠ "" := by
  unfold natStr
  intro h
  have := congrArg String.data h
  simp at this
  exact natChars_ne_nil this

theorem pyStrip_natStr {n : Nat} : pyStrip (natStr n) = natStr n :=
  pyStrip_eq_self (fun c hc => isDig_no_ws (natChars_all_dig c hc))

/-- `to_int` of the printed form of a day number recovers it. -/
theorem to_int_natStr {n : Nat} :
    ExcelLoader.to_int (CellVal.s (natStr n)) = (n : Int) := by
  simp only [ExcelLoader.to_int]
  rw [if_neg (by rw [pyStrip_natStr]; exact natStr_ne_empty)]
  rw [pyFloatOfString_natChars]
  exact ratTrunc_natCast

theorem intStr_natCast {n : Nat} : intStr ((n : Nat) : Int) = natStr n := by
  unfold intStr
  rw [if_neg (by omega)]
  simp

theorem month_to_number_lookup {mk : String} {mnum : Nat}
    (h : ExcelLoader.month_to_number mk = Except.ok mnum) :
    List.lookup mk MONTH_TO_NUM = some mnum := by
  unfold ExcelLoader.month_to_number at h
  split at h
  · rename_i n hn
    cases h
    exact hn
  · cases h

theorem date_string_num_ne_empty {year : Int} {mnum : Nat} {dayn : Int}
    (hy : 0 ≤ year) (hd : 0 ≤ dayn) :
    ExcelLoader.date_string_num year mnum dayn ≠ "" := by
  intro h
  have h2 := congrArg String.data h
  rw [date_string_num_data hy hd] at h2
  simp at h2

/-- Reading back a row whose cells hold exactly what `write_day_entry`
wrote for a normalized transaction reproduces that transaction. -/
theorem read_row_written {mk : String} {year : Int} {mnum day dd row : Nat}
    {ws2 : Sheet} {tx : Transaction}
    (hmn : ExcelLoader.month_to_number mk = Except.ok mnum)
    (hcDATE : getCell ws2 row ExcelLoader.COL_DATE = CellVal.i (dd : Int))
    (hcDAY : getCell ws2 row ExcelLoader.COL_DAY = CellVal.s tx.day)
    (hcCAT : getCell ws2 row ExcelLoader.COL_CATEGORY = CellVal.s tx.category)
    (hcAMT : getCell ws2 row ExcelLoader.COL_AMOUNT = CellVal.num tx.amount)
    (hcTYPE : getCell ws2 row ExcelLoader.COL_TYPE = CellVal.s tx.type)
    (hcDESC : getCell ws2 row ExcelLoader.COL_DESCRIPTION = CellVal.s tx.description)
    (hdate : tx.date = ExcelLoader.date_string_num year mnum (dd : Int))
    (hyr : 0 ≤ year)
    (htype : tx.type = "INCOME" ∨ tx.type = "EXPENSE")
    (hcat_s : pyStrip tx.category = tx.category)
    (hcat_u : pyUpper tx.category = tx.category)
    (hday_s : pyStrip tx.day = tx.day)
    (hdesc_s : pyStrip tx.description = tx.description) :
    ExcelLoader.read_row_as_transaction mk year day row ws2
      = Except.ok (Option.some tx) := by
  obtain ⟨txd, txdy, txc, txa, txt, txde⟩ := tx
  simp only at hcDAY hcCAT hcAMT hcTYPE hcDESC hdate htype hcat_s hcat_u hday_s hdesc_s
  subst hdate
  have hsTYPE : ExcelLoader.safe_cell_str ws2 row ExcelLoader.COL_TYPE = txt := by
    unfold ExcelLoader.safe_cell_str
    rw [hcTYPE]
    rfl
  have hsDATE : ExcelLoader.safe_cell_str ws2 row ExcelLoader.COL_DATE = natStr dd := by
    unfold ExcelLoader.safe_cell_str
    rw [hcDATE]
    show intStr ((dd : Nat) : Int) = natStr dd
    exact intStr_natCast
  have hsDAY : ExcelLoader.safe_cell_str ws2 row ExcelLoader.COL_DAY = txdy := by
    unfold ExcelLoader.safe_cell_str
    rw [hcDAY]
    rfl
  have hsCAT : ExcelLoader.safe_cell_str ws2 row ExcelLoader.COL_CATEGORY = txc := by
    unfold ExcelLoader.safe_cell_str
    rw [hcCAT]
    rfl
  have hsDESC : ExcelLoader.safe_cell_str ws2 row ExcelLoader.COL_DESCRIPTION = txde := by
    unfold ExcelLoader.safe_cell_str
    rw [hcDESC]
    rfl
  simp only [ExcelLoader.read_row_as_transaction, hsTYPE, hsDATE, hsDAY, hsCAT,
    hsDESC, hcAMT]
  rcases htype with h | h <;> subst h
  · rw [show pyUpper (pyStrip "INCOME") = "INCOME" from by decide]
    rw [if_neg (by simp), if_neg (by decide)]
    rw [pyStrip_natStr]
    rw [if_pos natStr_ne_empty, to_int_natStr]
    have hds : ExcelLoader.date_to_string year mk (dd : Int)
        = Except.ok (ExcelLoader.date_string_num year mnum (dd : Int)) := by
      simp only [ExcelLoader.date_to_string, hmn]
      rfl
    rw [hds]
    dsimp only
    have hdfix : pyStrip (ExcelLoader.date_string_num year mnum (dd : Int))
        = ExcelLoader.date_string_num year mnum (dd : Int) :=
      pyStrip_eq_self (date_string_num_no_ws hyr (by positivity))
    simp +decide [Transaction.create, ExcelLoader.to_float, hday_s, hcat_s, hcat_u,
      hdesc_s, hdfix]
  · rw [show pyUpper (pyStrip "EXPENSE") = "EXPENSE" from by decide]
    rw [if_neg (by simp), if_neg (by decide)]
    rw [pyStrip_natStr]
    rw [if_pos natStr_ne_empty, to_int_natStr]
    have hds : ExcelLoader.date_to_string year mk (dd : Int)
        = Except.ok (ExcelLoader.date_string_num year mnum (dd : Int)) := by
      simp only [ExcelLoader.date_to_string, hmn]
      rfl
    rw [hds]
    dsimp only
    have hdfix : pyStrip (ExcelLoader.date_string_num year mnum (dd : Int))
        = ExcelLoader.date_string_num year mnum (dd : Int) :=
      pyStrip_eq_self (date_string_num_no_ws hyr (by positivity))
    simp +decide [Transaction.create, ExcelLoader.to_float, hday_s, hcat_s, hcat_u,
      hdesc_s, hdfix]

/-- The six tracked cells of a written row hold exactly what
`write_day_entry` stored. -/
theorem writtenRow_cells (ws : Sheet) (row : Nat) (tx : Transaction) :
    getCell (ExcelLoader.writtenRow ws row tx) row ExcelLoader.COL_DATE
      = CellVal.i (ExcelLoader.extract_day tx.date) ∧
    getCell (ExcelLoader.writtenRow ws row tx) row ExcelLoader.COL_DAY
      = CellVal.s tx.day ∧
    getCell (ExcelLoader.writtenRow ws row tx) row ExcelLoader.COL_CATEGORY
      = CellVal.s tx.category ∧
    getCell (ExcelLoader.writtenRow ws row tx) row ExcelLoader.COL_AMOUNT
      = CellVal.num tx.amount ∧
    getCell (ExcelLoader.writtenRow ws row tx) row ExcelLoader.COL_TYPE
      = CellVal.s (pyUpper tx.type) ∧
    getCell (ExcelLoader.writtenRow ws row tx) row ExcelLoader.COL_DESCRIPTION
      = CellVal.s tx.description := by
  refine ⟨?_, ?_, ?_, ?_, ?_, ?_⟩ <;>
    simp [ExcelLoader.writtenRow, getCell, setCell, ExcelLoader.COL_DATE,
      ExcelLoader.COL_DAY, ExcelLoader.COL_CATEGORY, ExcelLoader.COL_AMOUNT,
      ExcelLoader.COL_TYPE, ExcelLoader.COL_DESCRIPTION]

/-- Cells outside the written row are untouched. -/
theorem writtenRow_getCell_other (ws : Sheet) (row : Nat) (tx : Transaction)
    (r c : Nat) (h : ¬ (r = row)) :
    getCell (ExcelLoader.writtenRow ws row tx) r c = getCell ws r c := by
  simp [ExcelLoader.writtenRow, getCell, setCell, h]

/-- With a valid month and a readable year cell, `read_month` succeeds and
returns, for each day `d`, the parses of the two rows of day `d`. -/
theorem read_month_ok
    {ws : Sheet} {month_name mk : String} {year : Int} {anchor dc mnum : Nat}
    (hmk : validate_month_name month_name = Except.ok mk)
    (hanchor : ExcelLoader.get_anchor_row mk = Except.ok anchor)
    (hy : ExcelLoader.get_year ws = Except.ok year)
    (hdc : GeneralHelper.get_days_in_month mk year = Except.ok dc)
    (hmn : ExcelLoader.month_to_number mk = Except.ok mnum) :
    ∃ l, ExcelLoader.read_month ws month_name = Except.ok l ∧ l.length = dc ∧
      ∀ d, 1 ≤ d → d ≤ dc →
        ∃ s0 s1, l[d - 1]? = some (d, (s0, s1)) ∧
          ExcelLoader.read_row_as_transaction mk year d
            (anchor + 2 + (d - 1) * 2) ws = Except.ok s0 ∧
          ExcelLoader.read_row_as_transaction mk year d
            (anchor + 2 + (d - 1) * 2 + 1) ws = Except.ok s1 := by
  have hrow : ∀ d, 1 ≤ d →
      ExcelLoader.row_for_day anchor d 0 = Except.ok (anchor + 2 + (d - 1) * 2) := by
    intro d hd1
    unfold ExcelLoader.row_for_day
    rw [if_neg (by omega), if_neg (by simp)]
    rfl
  have hall : ∀ d ∈ (List.range dc).map (· + 1), ∃ y,
      (match ExcelLoader.row_for_day anchor d 0 with
       | Except.error e => Except.error e
       | Except.ok row_top =>
         match ExcelLoader.read_row_as_transaction mk year d row_top ws with
         | Except.error e => Except.error e
         | Except.ok slot0 =>
           match ExcelLoader.read_row_as_transaction mk year d (row_top + 1) ws with
           | Except.error e => Except.error e
           | Except.ok slot1 => Except.ok (d, (slot0, slot1))) = Except.ok y := by
    intro d hd
    have hd1 : 1 ≤ d := by
      simp only [List.mem_map, List.mem_range] at hd
      obtain ⟨i, _, rfl⟩ := hd
      omega
    rw [hrow d hd1]
    dsimp only
    obtain ⟨o0, ho0⟩ := @read_row_ok_of_month _ _ year d
      (anchor + 2 + (d - 1) * 2) ws hmn
    rw [ho0]
    dsimp only
    obtain ⟨o1, ho1⟩ := @read_row_ok_of_month _ _ year d
      (anchor + 2 + (d - 1) * 2 + 1) ws hmn
    rw [ho1]
    exact ⟨_, rfl⟩
  obtain ⟨l, h1, h2, h3⟩ := exceptMapM_ok_of_forall_exists hall
  refine ⟨l, ?_, by simpa using h2, ?_⟩
  · simp only [ExcelLoader.read_month, hmk, hanchor, hy, hdc]
    exact h1
  · intro d hd1 hd2
    have hlt : d - 1 < ((List.range dc).map (· + 1)).length := by simp; omega
    have hltl : d - 1 < l.length := by
      rw [h2]
      simpa using (by omega : d - 1 < dc)
    have hgetxs : ((List.range dc).map (· + 1)).get ⟨d - 1, hlt⟩ = d := by
      simp [List.get_map, List.get_range]
      omega
    have hfd := h3 (d - 1) hlt hltl
    rw [hgetxs] at hfd
    rw [hrow d hd1] at hfd
    dsimp only at hfd
    obtain ⟨o0, ho0⟩ := @read_row_ok_of_month _ _ year d
      (anchor + 2 + (d - 1) * 2) ws hmn
    rw [ho0] at hfd
    dsimp only at hfd
    obtain ⟨o1, ho1⟩ := @read_row_ok_of_month _ _ year d
      (anchor + 2 + (d - 1) * 2 + 1) ws hmn
    rw [ho1] at hfd
    dsimp only at hfd
    have hval := Except.ok.inj hfd
    refine ⟨o0, o1, ?_, ho0, ho1⟩
    rw [List.getElem?_eq_getElem hltl]
    have hget : l.get ⟨d - 1, hltl⟩ = (d, (o0, o1)) := hval.symm
    simpa using hget

/-- Every element produced by a successful `exceptMapM` run comes from
applying `f` to some list element. -/
theorem exceptMapM_ok_mem {f : α → Except Err β} {xs : List α} {ys : List β}
    (h : exceptMapM f xs = Except.ok ys) :
    ∀ y ∈ ys, ∃ x ∈ xs, f x = Except.ok y := by
  induction xs generalizing ys with
  | nil =>
    simp only [exceptMapM] at h
    cases h
    intro y hy
    simp at hy
  | cons x xs ih =>
    simp only [exceptMapM] at h
    cases hfx : f x with
    | error e => rw [hfx] at h; cases h
    | ok y0 =>
      rw [hfx] at h
      cases hrec : exceptMapM f xs with
      | error e => rw [hrec] at h; cases h
      | ok ys0 =>
        rw [hrec] at h
        cases h
        intro y hy
        rcases List.mem_cons.mp hy with h1 | h1
        · exact ⟨x, by simp, by rw [hfx, h1]⟩
        · obtain ⟨x2, hx2, hfx2⟩ := ih hrec y h1
          exact ⟨x2, by simp [hx2], hfx2⟩

/-! ## Claim C2: the row addressing formula -/

/-- C2: for every month, every day in `1..daysInMonth(month, year)` and
every slot in `{0,1}`, `row_for_day` returns
`anchorRow(month) + 2 + (day-1)*2 + slot`; the mapping is strictly
increasing in lexicographic `(day, slot)` order and injective over the
whole month block. -/
theorem row_for_day_formula_mono_inj
    (mk : String) (anchor : Nat) (year : Int) (dc : Nat)
    (hmk : List.lookup mk ExcelLoader.MONTH_ANCHOR_ROW = some anchor)
    (hdc : GeneralHelper.get_days_in_month mk year = Except.ok dc) :
    (∀ day slot, 1 ≤ day → day ≤ dc → slot ≤ 1 →
      ExcelLoader.row_for_day anchor day slot
        = Except.ok (anchor + 2 + (day - 1) * 2 + slot)) ∧
    (∀ d1 s1 d2 s2, 1 ≤ d1 → d1 ≤ dc → s1 ≤ 1 → 1 ≤ d2 → d2 ≤ dc → s2 ≤ 1 →
      (d1 < d2 ∨ (d1 = d2 ∧ s1 < s2)) →
      anchor + 2 + (d1 - 1) * 2 + s1 < anchor + 2 + (d2 - 1) * 2 + s2) ∧
    (∀ d1 s1 d2 s2, 1 ≤ d1 → d1 ≤ dc → s1 ≤ 1 → 1 ≤ d2 → d2 ≤ dc → s2 ≤ 1 →
      anchor + 2 + (d1 - 1) * 2 + s1 = anchor + 2 + (d2 - 1) * 2 + s2 →
      d1 = d2 ∧ s1 = s2) := by
  refine ⟨?_, ?_, ?_⟩
  · intro day slot h1 h2 h3
    unfold ExcelLoader.row_for_day
    rw [if_neg (by omega), if_neg (by omega)]
  · intro d1 s1 d2 s2 _ _ h3 _ _ h6 h7
    omega
  · intro d1 s1 d2 s2 _ _ h3 _ _ h6 h7
    omega

/-- Witness for C2 at `JANUARY 2025`, day 5, slot 1 (row 19). -/
theorem row_for_day_formula_mono_inj_witness :
    List.lookup "JANUARY" ExcelLoader.MONTH_ANCHOR_ROW = some 8 ∧
    GeneralHelper.get_days_in_month "JANUARY" 2025 = Except.ok 31 ∧
    ExcelLoader.row_for_day 8 5 1 = Except.ok (8 + 2 + (5 - 1) * 2 + 1) :=
  ⟨by decide, by decide,
    (row_for_day_formula_mono_inj "JANUARY" 8 2025 31 (by decide) (by decide)).1
      5 1 (by decide) (by decide) (by decide)⟩

/-! ## Claim C6: numeric coercion policy -/

/-- C6: `to_float` strips `$` and `,` after whitespace-stripping and
before parsing, and returns `0.0` — never raising — on `None`, blank or
unparsable input; `to_int` likewise returns `0` on `None`, blank or
unparsable input and truncates the parsed float otherwise (it does not
strip `$`/`,`; those inputs simply fail to parse and coerce to `0`). -/
theorem to_float_to_int_coercion :
    (ExcelLoader.to_float CellVal.none = 0) ∧
    (∀ t, pyStrip t = "" → ExcelLoader.to_float (CellVal.s t) = 0) ∧
    (∀ t q, pyStrip t ≠ "" →
      pyFloatOfString (removeDollarComma (pyStrip t)) = some q →
      ExcelLoader.to_float (CellVal.s t) = q) ∧
    (∀ t, pyFloatOfString (removeDollarComma (pyStrip t)) = Option.none →
      ExcelLoader.to_float (CellVal.s t) = 0) ∧
    (ExcelLoader.to_int CellVal.none = 0) ∧
    (∀ t, pyStrip t = "" → ExcelLoader.to_int (CellVal.s t) = 0) ∧
    (∀ t, pyFloatOfString t = Option.none → ExcelLoader.to_int (CellVal.s t) = 0) ∧
    (∀ t q, pyStrip t ≠ "" → pyFloatOfString t = some q →
      ExcelLoader.to_int (CellVal.s t) = ratTrunc q) := by
  refine ⟨rfl, ?_, ?_, ?_, rfl, ?_, ?_, ?_⟩
  · intro t h
    simp only [ExcelLoader.to_float]
    rw [if_pos h]
  · intro t q h1 h2
    simp only [ExcelLoader.to_float]
    rw [if_neg h1, h2]
  · intro t h
    simp only [ExcelLoader.to_float]
    by_cases hb : pyStrip t = ""
    · rw [if_pos hb]
    · rw [if_neg hb, h]
  · intro t h
    simp only [ExcelLoader.to_int]
    rw [if_pos h]
  · intro t h
    simp only [ExcelLoader.to_int]
    by_cases hb : pyStrip t = ""
    · rw [if_pos hb]
    · rw [if_neg hb, h]
  · intro t q h1 h2
    simp only [ExcelLoader.to_int]
    rw [if_neg h1, h2]

/-- Witness for C6: `to_float` turns `" $1,234.5 "` into `2469/2 = 1234.5`,
`to_int` coerces the unparsable `"$5"` to `0` and truncates `"7.9"` to `7`. -/
theorem to_float_to_int_coercion_witness :
    (pyStrip " $1,234.5 " ≠ "" ∧
      pyFloatOfString (removeDollarComma (pyStrip " $1,234.5 ")) = some ((2469 : Rat)/2) ∧
      ExcelLoader.to_float (CellVal.s " $1,234.5 ") = (2469 : Rat)/2) ∧
    (pyFloatOfString "$5" = Option.none ∧ ExcelLoader.to_int (CellVal.s "$5") = 0) := by
  have hparse : pyFloatOfString "1234.5" = some ((2469 : Rat)/2) := by
    have h3 : pySign (stripL "1234.5".data) = (false, "1234.5".data) := by decide
    have h4 : splitOnCharL '.' "1234.5".data = ["1234".data, "5".data] := by decide
    unfold pyFloatOfString
    rw [h3]
    simp only
    rw [h4]
    simp +decide [digitsVal]
    norm_num
  have hdc : removeDollarComma (pyStrip " $1,234.5 ") = "1234.5" := by decide
  have h1 : pyStrip " $1,234.5 " ≠ "" := by decide
  have h2 : pyFloatOfString (removeDollarComma (pyStrip " $1,234.5 ")) = some ((2469 : Rat)/2) := by
    rw [hdc]; exact hparse
  have h5 : pyFloatOfString "$5" = Option.none := by decide
  exact ⟨⟨h1, h2, (to_float_to_int_coercion.2.2.1) " $1,234.5 " ((2469 : Rat)/2) h1 h2⟩,
    ⟨h5, (to_float_to_int_coercion.2.2.2.2.2.2.1) "$5" h5⟩⟩

/-! ## Claim C8: `read_month` never materializes a `NONE`-kind record -/

/-- C8: a row whose type cell reads `NONE`, or that is entirely blank, or
whose type cell holds anything outside `{INCOME, EXPENSE, NONE}`, parses
to `none`; consequently every `Transaction` produced by
`read_row_as_transaction` — and hence every one returned by `read_month`
— has kind `INCOME` or `EXPENSE`. -/
theorem read_month_never_materializes_none :
    (∀ mk year day row ws,
      pyUpper (pyStrip (ExcelLoader.safe_cell_str ws row ExcelLoader.COL_TYPE)) = "NONE" →
      ExcelLoader.read_row_as_transaction mk year day row ws = Except.ok Option.none) ∧
    (∀ mk year day row ws,
      pyUpper (pyStrip (ExcelLoader.safe_cell_str ws row ExcelLoader.COL_TYPE)) = "" →
      pyStrip (ExcelLoader.safe_cell_str ws row ExcelLoader.COL_DATE) = "" →
      pyStrip (ExcelLoader.safe_cell_str ws row ExcelLoader.COL_DAY) = "" →
      pyStrip (ExcelLoader.safe_cell_str ws row ExcelLoader.COL_CATEGORY) = "" →
      pyStrip (ExcelLoader.safe_cell_str ws row ExcelLoader.COL_DESCRIPTION) = "" →
      (getCell ws row ExcelLoader.COL_AMOUNT = CellVal.none ∨
        pyStrip (pyStr (getCell ws row ExcelLoader.COL_AMOUNT)) = "") →
      ExcelLoader.read_row_as_transaction mk year day row ws = Except.ok Option.none) ∧
    (∀ mk year day row ws,
      pyUpper (pyStrip (ExcelLoader.safe_cell_str ws row ExcelLoader.COL_TYPE)) ≠ "INCOME" →
      pyUpper (pyStrip (ExcelLoader.safe_cell_str ws row ExcelLoader.COL_TYPE)) ≠ "EXPENSE" →
      pyUpper (pyStrip (ExcelLoader.safe_cell_str ws row ExcelLoader.COL_TYPE)) ≠ "NONE" →
      ExcelLoader.read_row_as_transaction mk year day row ws = Except.ok Option.none) ∧
    (∀ mk year day row ws tx,
      ExcelLoader.read_row_as_transaction mk year day row ws = Except.ok (Option.some tx) →
      tx.type = "INCOME" ∨ tx.type = "EXPENSE") ∧
    (∀ ws m l, ExcelLoader.read_month ws m = Except.ok l →
      ∀ p ∈ l, ∀ tx, (p.2.1 = Option.some tx ∨ p.2.2 = Option.some tx) →
        tx.type = "INCOME" ∨ tx.type = "EXPENSE") := by
  have hsome : ∀ mk year day row ws tx,
      ExcelLoader.read_row_as_transaction mk year day row ws = Except.ok (Option.some tx) →
      tx.type = "INCOME" ∨ tx.type = "EXPENSE" := by
    intro mk year day row ws tx h
    simp only [ExcelLoader.read_row_as_transaction] at h
    split at h
    · simp at h
    · rename_i hfirst
      split at h
      · simp at h
      · rename_i hcont
        rw [not_not] at hcont
        have ht : pyUpper (pyStrip (ExcelLoader.safe_cell_str ws row ExcelLoader.COL_TYPE))
            = "EXPENSE" ∨
            pyUpper (pyStrip (ExcelLoader.safe_cell_str ws row ExcelLoader.COL_TYPE))
            = "INCOME" := by
          simp [ExcelLoader.VALID_TYPES, List.contains] at hcont
          rcases hcont with h1 | h1 | h1
          · exact Or.inl h1
          · exact Or.inr h1
          · exact absurd (Or.inl h1) hfirst
        split at h
        · simp at h
        · have h2 := Option.some.inj (Except.ok.inj h)
          subst h2
          rcases ht with h1 | h1 <;> rw [h1] <;> simp only [Transaction.create] <;> decide
  refine ⟨?_, ?_, ?_, hsome, ?_⟩
  · intro mk year day row ws h
    simp only [ExcelLoader.read_row_as_transaction]
    rw [if_pos (Or.inl h)]
  · intro mk year day row ws h1 h2 h3 h4 h5 h6
    simp only [ExcelLoader.read_row_as_transaction]
    rw [if_pos (Or.inr ⟨h1, h1, h2, h3, h4, h5, h6⟩)]
  · intro mk year day row ws hI hE hN
    simp only [ExcelLoader.read_row_as_transaction]
    split
    · rfl
    · have hcont : ExcelLoader.VALID_TYPES.contains
          (pyUpper (pyStrip (ExcelLoader.safe_cell_str ws row ExcelLoader.COL_TYPE)))
            = false := by
        simp [ExcelLoader.VALID_TYPES, List.contains]
        exact ⟨hE, hI, hN⟩
      rw [if_pos (show ¬ _ = true by rw [hcont]; simp)]
  · intro ws m l hl p hp tx hslot
    simp only [ExcelLoader.read_month] at hl
    split at hl
    · cases hl
    · split at hl
      · cases hl
      · split at hl
        · cases hl
        · split at hl
          · cases hl
          · obtain ⟨d, hdm, hd⟩ := exceptMapM_ok_mem hl p hp
            split at hd
            · cases hd
            · rename_i row_top hrt
              split at hd
              · cases hd
              · rename_i s0 hs0
                split at hd
                · cases hd
                · rename_i s1 hs1
                  have h2 := Except.ok.inj hd
                  subst h2
                  rcases hslot with h | h
                  · simp only at h
                    rw [h] at hs0
                    exact hsome _ _ _ _ _ _ hs0
                  · simp only at h
                    rw [h] at hs1
                    exact hsome _ _ _ _ _ _ hs1

/-! ## Claim C5: writing `None` clears the row and reads back `None` -/

/-- C5: for every valid `(month, day, slot)`, writing `None` via
`write_day_entry` clears every tracked column of the target row except the
type column, sets the type cell to the literal `NONE` marker (never
leaving it blank), and a subsequent `read_month` yields `None` for that
slot. -/
theorem write_none_clears_and_reads_none
    (ws : Sheet) (month_name mk : String) (year : Int) (anchor dc day slot : Nat)
    (hmk : validate_month_name month_name = Except.ok mk)
    (hy : ExcelLoader.get_year ws = Except.ok year)
    (hanchor : ExcelLoader.get_anchor_row mk = Except.ok anchor)
    (hdc : GeneralHelper.get_days_in_month mk year = Except.ok dc)
    (hday1 : 1 ≤ day) (hday2 : day ≤ dc)
    (hslot : slot = 0 ∨ slot = 1) :
    ∃ ws2,
      ExcelLoader.write_day_entry ws month_name day slot Option.none = Except.ok ws2 ∧
      (∀ col ∈ ExcelLoader.COL_values, col ≠ ExcelLoader.COL_TYPE →
        getCell ws2 (anchor + 2 + (day - 1) * 2 + slot) col = CellVal.none) ∧
      getCell ws2 (anchor + 2 + (day - 1) * 2 + slot) ExcelLoader.COL_TYPE
        = CellVal.s "NONE" ∧
      ∃ l, ExcelLoader.read_month ws2 month_name = Except.ok l ∧
        ∃ s0 s1, l[day - 1]? = some (day, (s0, s1)) ∧
          (slot = 0 → s0 = Option.none) ∧ (slot = 1 → s1 = Option.none) := by
  obtain ⟨anchor2, mnum, ha, ha8, hmn, hm1, hm12, hgd, hd31, hks, hku⟩ :=
    month_facts (validate_month_name_contains hmk) year
  rw [hanchor] at ha
  have hae := Except.ok.inj ha
  subst hae
  have hvd : validate_day_in_month mk year day = Except.ok () := by
    simp only [validate_day_in_month, hdc]
    rw [if_neg (by omega)]
  have hvs : validate_slot_index slot = Except.ok () := by
    unfold validate_slot_index
    rcases hslot with h | h <;> subst h <;> decide
  have hrfd : ExcelLoader.row_for_day anchor day slot
      = Except.ok (anchor + 2 + (day - 1) * 2 + slot) := by
    unfold ExcelLoader.row_for_day
    rw [if_neg (by omega), if_neg (by rcases hslot with h | h <;> subst h <;> simp)]
  have hwrite : ExcelLoader.write_day_entry ws month_name day slot Option.none
      = Except.ok (setCell
          (ExcelLoader.clear_row ws (anchor + 2 + (day - 1) * 2 + slot))
          (anchor + 2 + (day - 1) * 2 + slot) ExcelLoader.COL_TYPE
          (CellVal.s "NONE")) := by
    simp only [ExcelLoader.write_day_entry, hmk, hy, hvd, hvs,
      validate_transaction_or_none, hanchor, hrfd]
  refine ⟨_, hwrite, ?_, ?_, ?_⟩
  · intro col hc hne
    simp only [ExcelLoader.COL_values, ExcelLoader.COL_DATE, ExcelLoader.COL_DAY,
      ExcelLoader.COL_CATEGORY, ExcelLoader.COL_AMOUNT, ExcelLoader.COL_TYPE,
      ExcelLoader.COL_DESCRIPTION, List.mem_cons, List.not_mem_nil, or_false] at hc
    simp only [ExcelLoader.COL_TYPE] at hne
    rcases hc with rfl | rfl | rfl | rfl | rfl | rfl
    · simp [getCell, setCell, ExcelLoader.clear_row, ExcelLoader.COL_values,
        ExcelLoader.COL_DATE, ExcelLoader.COL_DAY, ExcelLoader.COL_CATEGORY,
        ExcelLoader.COL_AMOUNT, ExcelLoader.COL_TYPE, ExcelLoader.COL_DESCRIPTION]
    · simp [getCell, setCell, ExcelLoader.clear_row, ExcelLoader.COL_values,
        ExcelLoader.COL_DATE, ExcelLoader.COL_DAY, ExcelLoader.COL_CATEGORY,
        ExcelLoader.COL_AMOUNT, ExcelLoader.COL_TYPE, ExcelLoader.COL_DESCRIPTION]
    · simp [getCell, setCell, ExcelLoader.clear_row, ExcelLoader.COL_values,
        ExcelLoader.COL_DATE, ExcelLoader.COL_DAY, ExcelLoader.COL_CATEGORY,
        ExcelLoader.COL_AMOUNT, ExcelLoader.COL_TYPE, ExcelLoader.COL_DESCRIPTION]
    · simp [getCell, setCell, ExcelLoader.clear_row, ExcelLoader.COL_values,
        ExcelLoader.COL_DATE, ExcelLoader.COL_DAY, ExcelLoader.COL_CATEGORY,
        ExcelLoader.COL_AMOUNT, ExcelLoader.COL_TYPE, ExcelLoader.COL_DESCRIPTION]
    · exact absurd rfl hne
    · simp [getCell, setCell, ExcelLoader.clear_row, ExcelLoader.COL_values,
        ExcelLoader.COL_DATE, ExcelLoader.COL_DAY, ExcelLoader.COL_CATEGORY,
        ExcelLoader.COL_AMOUNT, ExcelLoader.COL_TYPE, ExcelLoader.COL_DESCRIPTION]
  · simp [getCell, setCell, ExcelLoader.COL_TYPE]
  · have hy2 : ExcelLoader.get_year
        (setCell (ExcelLoader.clear_row ws (anchor + 2 + (day - 1) * 2 + slot))
          (anchor + 2 + (day - 1) * 2 + slot) ExcelLoader.COL_TYPE
          (CellVal.s "NONE")) = Except.ok year := by
      have hne : ¬ (ExcelLoader.YEAR_ROW = anchor + 2 + (day - 1) * 2 + slot) := by
        simp only [ExcelLoader.YEAR_ROW]
        omega
      have hcell : getCell
          (setCell (ExcelLoader.clear_row ws (anchor + 2 + (day - 1) * 2 + slot))
            (anchor + 2 + (day - 1) * 2 + slot) ExcelLoader.COL_TYPE
            (CellVal.s "NONE")) ExcelLoader.YEAR_ROW ExcelLoader.YEAR_COL
          = getCell ws ExcelLoader.YEAR_ROW ExcelLoader.YEAR_COL := by
        simp [getCell, setCell, ExcelLoader.clear_row, ExcelLoader.COL_values,
          ExcelLoader.COL_DATE, ExcelLoader.COL_DAY, ExcelLoader.COL_CATEGORY,
          ExcelLoader.COL_AMOUNT, ExcelLoader.COL_TYPE, ExcelLoader.COL_DESCRIPTION,
          hne]
      rw [get_year_congr hcell, hy]
    obtain ⟨l, hml, hlen, hchar⟩ := read_month_ok hmk hanchor hy2 hdc hmn
    obtain ⟨s0, s1, hidx, hr0, hr1⟩ := hchar day hday1 hday2
    refine ⟨l, hml, s0, s1, hidx, ?_, ?_⟩
    · intro h0
      subst h0
      have hmark : getCell
          (setCell (ExcelLoader.clear_row ws (anchor + 2 + (day - 1) * 2 + 0))
            (anchor + 2 + (day - 1) * 2 + 0) ExcelLoader.COL_TYPE
            (CellVal.s "NONE"))
          (anchor + 2 + (day - 1) * 2) ExcelLoader.COL_TYPE = CellVal.s "NONE" := by
        simp [getCell, setCell, ExcelLoader.COL_TYPE]
      have := @read_row_of_type_none mk year day _ _ hmark
      rw [this] at hr0
      exact (Except.ok.inj hr0).symm
    · intro h1
      subst h1
      have hmark : getCell
          (setCell (ExcelLoader.clear_row ws (anchor + 2 + (day - 1) * 2 + 1))
            (anchor + 2 + (day - 1) * 2 + 1) ExcelLoader.COL_TYPE
            (CellVal.s "NONE"))
          (anchor + 2 + (day - 1) * 2 + 1) ExcelLoader.COL_TYPE = CellVal.s "NONE" := by
        simp [getCell, setCell, ExcelLoader.COL_TYPE]
      have := @read_row_of_type_none mk year day _ _ hmark
      rw [this] at hr1
      exact (Except.ok.inj hr1).symm

/-- Witness for C5 at `JANUARY 2025`, day 1, slot 0, on a sheet holding
only the year. -/
theorem write_none_clears_and_reads_none_witness :
    validate_month_name "JANUARY" = Except.ok "JANUARY" ∧
    ExcelLoader.get_year (yearOnlySheet 2025) = Except.ok 2025 ∧
    ExcelLoader.get_anchor_row "JANUARY" = Except.ok 8 ∧
    GeneralHelper.get_days_in_month "JANUARY" 2025 = Except.ok 31 ∧
    (∃ ws2,
      ExcelLoader.write_day_entry (yearOnlySheet 2025) "JANUARY" 1 0 Option.none
        = Except.ok ws2 ∧
      (∀ col ∈ ExcelLoader.COL_values, col ≠ ExcelLoader.COL_TYPE →
        getCell ws2 (8 + 2 + (1 - 1) * 2 + 0) col = CellVal.none) ∧
      getCell ws2 (8 + 2 + (1 - 1) * 2 + 0) ExcelLoader.COL_TYPE = CellVal.s "NONE" ∧
      ∃ l, ExcelLoader.read_month ws2 "JANUARY" = Except.ok l ∧
        ∃ s0 s1, l[1 - 1]? = some (1, (s0, s1)) ∧
          (0 = 0 → s0 = Option.none) ∧ (0 = 1 → s1 = Option.none)) :=
  ⟨by decide, by decide, by decide, by decide,
    write_none_clears_and_reads_none (yearOnlySheet 2025) "JANUARY" "JANUARY"
      2025 8 31 1 0 (by decide) (by decide) (by decide) (by decide)
      (by decide) (by decide) (Or.inl rfl)⟩

/-- Witness for C8: a row whose type cell holds `" none "` parses to an
empty slot. -/
theorem read_month_never_materializes_none_witness :
    pyUpper (pyStrip (ExcelLoader.safe_cell_str sampleNoneRowSheet 10
      ExcelLoader.COL_TYPE)) = "NONE" ∧
    ExcelLoader.read_row_as_transaction "JANUARY" 2025 1 10 sampleNoneRowSheet
      = Except.ok Option.none :=
  ⟨by decide,
    read_month_never_materializes_none.1 "JANUARY" 2025 1 10 sampleNoneRowSheet
      (by decide)⟩


/-! ## Claim C1: write/read round trip for a valid record -/

/-- C1: writing a valid, normalized transaction whose canonical
`YYYY-MM-DD` date matches the target month and year to a valid
`(month, day, slot)` and then reading that slot back via `read_month`
yields the very same record in every field. -/
theorem write_then_read_round_trip
    (ws : Sheet) (month_name mk : String) (year : Int)
    (anchor dc mnum day slot dd : Nat) (tx : Transaction)
    (hmk : validate_month_name month_name = Except.ok mk)
    (hy : ExcelLoader.get_year ws = Except.ok year)
    (hanchor : ExcelLoader.get_anchor_row mk = Except.ok anchor)
    (hmn : ExcelLoader.month_to_number mk = Except.ok mnum)
    (hdc : GeneralHelper.get_days_in_month mk year = Except.ok dc)
    (hday1 : 1 ≤ day) (hday2 : day ≤ dc)
    (hslot : slot = 0 ∨ slot = 1)
    (hyr1 : 1 ≤ year) (hyr2 : year ≤ 9999)
    (hdate : tx.date = ExcelLoader.date_string_num year mnum (dd : Int))
    (hdd1 : 1 ≤ dd) (hdd2 : dd ≤ daysInMonthNum mnum year)
    (htype : tx.type = "INCOME" ∨ tx.type = "EXPENSE")
    (hamount : 0 ≤ tx.amount)
    (hcat_s : pyStrip tx.category = tx.category)
    (hcat_u : pyUpper tx.category = tx.category)
    (hcat_ne : tx.category ≠ "")
    (hday_s : pyStrip tx.day = tx.day)
    (hdesc_s : pyStrip tx.description = tx.description) :
    ∃ ws2, ExcelLoader.write_day_entry ws month_name day slot (Option.some tx)
        = Except.ok ws2 ∧
      ∃ l, ExcelLoader.read_month ws2 month_name = Except.ok l ∧
        ∃ s0 s1, l[day - 1]? = some (day, (s0, s1)) ∧
          (slot = 0 → s0 = Option.some tx) ∧ (slot = 1 → s1 = Option.some tx) := by
  obtain ⟨anchor2, mnum2, ha, ha8, hmn2, hm1, hm12, hgd, hd31, hks, hku⟩ :=
    month_facts (validate_month_name_contains hmk) year
  rw [hanchor] at ha
  have hae := Except.ok.inj ha
  subst hae
  rw [hmn] at hmn2
  have hme := Except.ok.inj hmn2
  subst hme
  have hvd : validate_day_in_month mk year day = Except.ok () := by
    simp only [validate_day_in_month, hdc]
    rw [if_neg (by omega)]
  have hvs : validate_slot_index slot = Except.ok () := by
    unfold validate_slot_index
    rcases hslot with h | h <;> subst h <;> decide
  have htfix : pyUpper tx.type = tx.type := by
    rcases htype with h | h <;> rw [h] <;> decide
  have hdfix : pyStrip tx.date = tx.date := by
    rw [hdate]
    exact pyStrip_eq_self (date_string_num_no_ws (by omega) (by positivity))
  have hne0 : tx.date ≠ "" := by
    rw [hdate]
    exact date_string_num_ne_empty (by omega) (by positivity)
  have hvt : validate_transaction_or_none (Option.some tx) = Except.ok () := by
    simp only [validate_transaction_or_none]
    rw [if_neg (not_lt.mpr hamount)]
    have htfix2 : pyUpper (pyStrip tx.type) = tx.type := by
      rcases htype with h | h <;> rw [h] <;> decide
    rw [htfix2]
    rw [if_neg (not_not_intro htype)]
    rw [hcat_s, if_neg hcat_ne]
    rw [hdfix, if_neg hne0]
    rw [hdate, strptime_date_string hyr1 hyr2 (by omega) (by omega) hdd1 hdd2]
  have hvdm : validate_date_matches_month mk tx.date year = Except.ok () := by
    unfold validate_date_matches_month
    rw [hdate, strptime_date_string hyr1 hyr2 (by omega) (by omega) hdd1 hdd2]
    dsimp only
    rw [hks, hku]
    rw [month_to_number_lookup hmn]
    dsimp only
    rw [if_neg (by simp)]
  have hextract : ExcelLoader.extract_day tx.date = (dd : Int) := by
    rw [hdate]
    exact extract_day_date_string (by omega)
  have hmain : ∀ rowPos : Nat, ExcelLoader.row_for_day anchor day slot = Except.ok rowPos →
      (slot = 0 → rowPos = anchor + 2 + (day - 1) * 2) →
      (slot = 1 → rowPos = anchor + 2 + (day - 1) * 2 + 1) →
      ∃ ws2, ExcelLoader.write_day_entry ws month_name day slot (Option.some tx)
          = Except.ok ws2 ∧
        ∃ l, ExcelLoader.read_month ws2 month_name = Except.ok l ∧
          ∃ s0 s1, l[day - 1]? = some (day, (s0, s1)) ∧
            (slot = 0 → s0 = Option.some tx) ∧ (slot = 1 → s1 = Option.some tx) := by
    intro rowPos hrfd hpos0 hpos1
    have hwrite : ExcelLoader.write_day_entry ws month_name day slot (Option.some tx)
        = Except.ok (ExcelLoader.writtenRow ws rowPos tx) := by
      simp only [ExcelLoader.write_day_entry, hmk, hy, hvd, hvs, hvt, hvdm,
        hanchor, hrfd]
      rfl
    refine ⟨_, hwrite, ?_⟩
    have hrowpos : 8 ≤ rowPos := by
      rcases hslot with h | h
      · rw [hpos0 h]; omega
      · rw [hpos1 h]; omega
    have hy2 : ExcelLoader.get_year (ExcelLoader.writtenRow ws rowPos tx)
        = Except.ok year := by
      rw [get_year_congr (writtenRow_getCell_other ws rowPos tx
        ExcelLoader.YEAR_ROW ExcelLoader.YEAR_COL
        (by simp only [ExcelLoader.YEAR_ROW]; omega)), hy]
    obtain ⟨l, hml, hlen, hchar⟩ := read_month_ok hmk hanchor hy2 hdc hmn
    obtain ⟨s0, s1, hidx, hr0, hr1⟩ := hchar day hday1 hday2
    obtain ⟨hcDATE, hcDAY, hcCAT, hcAMT, hcTYPE, hcDESC⟩ :=
      writtenRow_cells ws rowPos tx
    rw [hextract] at hcDATE
    rw [htfix] at hcTYPE
    have hRR := @read_row_written _ _ _ day _ _ _ _ hmn hcDATE hcDAY hcCAT hcAMT
      hcTYPE hcDESC hdate (by omega) htype hcat_s hcat_u hday_s hdesc_s
    refine ⟨l, hml, s0, s1, hidx, ?_, ?_⟩
    · intro h0
      have hrp := hpos0 h0
      subst hrp
      rw [hRR] at hr0
      exact (Except.ok.inj hr0).symm
    · intro h1
      have hrp := hpos1 h1
      subst hrp
      rw [hRR] at hr1
      exact (Except.ok.inj hr1).symm
  rcases hslot with h | h
  · subst h
    refine hmain (anchor + 2 + (day - 1) * 2) ?_ (fun _ => rfl) (fun hc => by cases hc)
    unfold ExcelLoader.row_for_day
    rw [if_neg (by omega), if_neg (by simp)]
    rfl
  · subst h
    refine hmain (anchor + 2 + (day - 1) * 2 + 1) ?_ (fun hc => by cases hc) (fun _ => rfl)
    unfold ExcelLoader.row_for_day
    rw [if_neg (by omega), if_neg (by simp)]


/-- Witness for C1 at `JANUARY 2025`, day 5, slot 1, with a concrete
income record dated `2025-01-07`. -/
theorem write_then_read_round_trip_witness :
    sampleTx.date = ExcelLoader.date_string_num 2025 1 (7 : Int) ∧
    ExcelLoader.get_year (yearOnlySheet 2025) = Except.ok 2025 ∧
    (∃ ws2, ExcelLoader.write_day_entry (yearOnlySheet 2025) "JANUARY" 5 1
        (Option.some sampleTx) = Except.ok ws2 ∧
      ∃ l, ExcelLoader.read_month ws2 "JANUARY" = Except.ok l ∧
        ∃ s0 s1, l[5 - 1]? = some (5, (s0, s1)) ∧
          ((1 : Nat) = 0 → s0 = Option.some sampleTx) ∧
          ((1 : Nat) = 1 → s1 = Option.some sampleTx)) :=
  ⟨by decide, by decide,
    write_then_read_round_trip (yearOnlySheet 2025) "JANUARY" "JANUARY" 2025
      8 31 1 5 1 7 sampleTx (by decide) (by decide) (by decide) (by decide)
      (by decide) (by decide) (by decide) (Or.inr rfl) (by decide) (by decide)
      (by decide) (by decide) (by decide) (Or.inl rfl) (by norm_num [sampleTx])
      (by decide) (by decide) (by decide) (by decide) (by decide)⟩

/-! ## Claim C7: category totals are EXPENSE-only with a MISCELLANEOUS
fallback -/

/-- C7: `get_category_totals_year` folds only over records of kind
`EXPENSE` (income and anything else contributes nothing), a record whose
category is blank after trimming is folded into the `MISCELLANEOUS`
bucket, and on one INCOME of 500 plus one EXPENSE of 100 in `FOOD` the
result maps exactly `FOOD` to 100. -/
theorem category_totals_expense_only :
    (∀ data, AnalyticManager.get_category_totals_year data
      = ((AnalyticManager.iter_all_transactions data).filter
          (fun t => pyUpper (pyStrip t.type) == "EXPENSE")).foldl
          AnalyticManager.category_step []) ∧
    (∀ totals t, pyUpper (pyStrip t.type) = "EXPENSE" → pyStrip t.category = "" →
      AnalyticManager.category_step totals t
        = AnalyticManager.dict_add totals "MISCELLANEOUS" t.amount) ∧
    AnalyticManager.get_category_totals_year sampleYearData
      = [("FOOD", 100)] := by
  refine ⟨?_, ?_, ?_⟩
  · intro data
    unfold AnalyticManager.get_category_totals_year
    suffices h : ∀ (l : List Transaction) (acc : List (String × Rat)),
        l.foldl AnalyticManager.category_step acc
          = (l.filter (fun t => pyUpper (pyStrip t.type) == "EXPENSE")).foldl
            AnalyticManager.category_step acc by
      exact h (AnalyticManager.iter_all_transactions data) []
    intro l
    induction l with
    | nil => intro acc; rfl
    | cons t rest ih =>
      intro acc
      by_cases h : pyUpper (pyStrip t.type) = "EXPENSE"
      · simp only [List.foldl_cons, List.filter_cons]
        rw [if_pos (by simp [h])]
        simp only [List.foldl_cons]
        exact ih _
      · simp only [List.foldl_cons, List.filter_cons]
        rw [if_neg (by simp [h])]
        have hstep : AnalyticManager.category_step acc t = acc := by
          unfold AnalyticManager.category_step
          rw [if_pos h]
        rw [hstep]
        exact ih _
  · intro totals t hexp hblank
    unfold AnalyticManager.category_step AnalyticManager.category_key
    rw [if_neg (not_not_intro hexp), hblank]
    rfl
  · decide

/-- Witness for C7: a blank-category expense record is booked under
`MISCELLANEOUS`. -/
theorem category_totals_expense_only_witness :
    pyUpper (pyStrip sampleBlankCatTx.type) = "EXPENSE" ∧
    pyStrip sampleBlankCatTx.category = "" ∧
    AnalyticManager.category_step [] sampleBlankCatTx
      = AnalyticManager.dict_add [] "MISCELLANEOUS" sampleBlankCatTx.amount :=
  ⟨by decide, by decide,
    category_totals_expense_only.2.1 [] sampleBlankCatTx (by decide) (by decide)⟩

/-! ### C10: the loader's handle/path invariant -/

theorem loaderInv_empty : LoaderInv ExcelLoader.emptyLoader := by
  intro h
  simp [ExcelLoader.emptyLoader] at h

theorem loaderInv_open (fs : FS) (st : ExcelLoader.Loader) (p : String)
    (h : LoaderInv st) : LoaderInv (ExcelLoader.loader_open fs st p).1 := by
  unfold ExcelLoader.loader_open
  split
  · exact h
  · dsimp only
    split
    · intro _
      rfl
    · intro _
      rfl

theorem loaderInv_write_all {st : ExcelLoader.Loader}
    {data : List (String × List (Nat × List (Option Transaction)))}
    {st2 : ExcelLoader.Loader}
    (heq : ExcelLoader.loader_write_all st data = Except.ok st2)
    (h : LoaderInv st) : LoaderInv st2 := by
  unfold ExcelLoader.loader_write_all at heq
  split at heq
  · rename_i wb ws hwb hws
    split at heq
    · exact absurd heq (by simp)
    · rename_i ws2 hws2
      have hst2 := Except.ok.inj heq
      subst hst2
      intro _
      apply h
      rw [hwb]
      rfl
  · exact absurd heq (by simp)

theorem loaderInv_prepare (st : ExcelLoader.Loader) (fs : FS) (tpl sd : String)
    (h : LoaderInv st) :
    LoaderInv (ExcelLoader.prepare_fresh_session st fs tpl sd).1 := by
  unfold ExcelLoader.prepare_fresh_session
  split
  · exact h
  · dsimp only
    rcases hres : ExcelLoader.loader_open (copyFile fs tpl (sd ++ "/user_data.xlsx")) st
        (sd ++ "/user_data.xlsx") with ⟨st1, r⟩
    have hst1 : LoaderInv st1 := by
      have h2 := loaderInv_open (copyFile fs tpl (sd ++ "/user_data.xlsx")) st
          (sd ++ "/user_data.xlsx") h
      rw [hres] at h2
      exact h2
    cases r with
    | error e => exact hst1
    | ok u =>
      dsimp only
      split
      · exact hst1
      · exact hst1
      · exact loaderInv_empty

theorem loaderInv_import (st : ExcelLoader.Loader) (fs : FS) (src : String)
    (h : LoaderInv st) :
    LoaderInv (ExcelLoader.import_into_session st fs src).1 := by
  unfold ExcelLoader.import_into_session
  split
  · exact h
  · rename_i p hp
    split
    · exact h
    · split
      · exact h
      · split
        · exact h
        · rename_i fs1 hsave
          dsimp only
          rcases hres : ExcelLoader.loader_open (copyFile fs1 src p) st p with ⟨st2, r⟩
          have hst2 : LoaderInv st2 := by
            have h2 := loaderInv_open (copyFile fs1 src p) st p h
            rw [hres] at h2
            exact h2
          exact hst2

/-- C10: in every adapter state reachable through the public lifecycle
operations, an open workbook or worksheet handle implies a bound backing
path, and `save` can never fail with the
"No backing path associated with this workbook." error. -/
theorem open_handle_has_backing_path (st : ExcelLoader.Loader)
    (h : LoaderReachable st) :
    ((st._wb.isSome || st._ws.isSome) = true → st._path.isSome = true)
    ∧ ∀ fs : FS, ExcelLoader.loader_save fs st
        ≠ Except.error (Err.validation "No backing path associated with this workbook.") := by
  have hinv : LoaderInv st := by
    induction h with
    | init => exact loaderInv_empty
    | openStep fs st1 p _ ih => exact loaderInv_open fs st1 p ih
    | closeStep st1 _ _ => exact loaderInv_empty
    | writeAllStep st1 data st2 _ heq ih => exact loaderInv_write_all heq ih
    | prepareStep st1 fs tpl sd _ ih => exact loaderInv_prepare st1 fs tpl sd ih
    | importStep st1 fs src _ ih => exact loaderInv_import st1 fs src ih
  refine ⟨hinv, ?_⟩
  intro fs heq
  cases hwb : st._wb with
  | none =>
    unfold ExcelLoader.loader_save at heq
    rw [hwb] at heq
    simp only [Option.isNone_none, Bool.true_or, if_true] at heq
    have h1 := Err.validation.inj (Except.error.inj heq)
    exact absurd h1 (by decide)
  | some wb =>
    cases hws : st._ws with
    | none =>
      unfold ExcelLoader.loader_save at heq
      rw [hwb, hws] at heq
      simp only [Option.isNone_some, Option.isNone_none, Bool.or_true, if_true] at heq
      have h1 := Err.validation.inj (Except.error.inj heq)
      exact absurd h1 (by decide)
    | some ws =>
      have hpath : st._path.isSome = true := by
        apply hinv
        rw [hwb]
        rfl
      cases hpathc : st._path with
      | none =>
        rw [hpathc] at hpath
        simp at hpath
      | some p =>
        unfold ExcelLoader.loader_save at heq
        rw [hwb, hws, hpathc] at heq
        simp only [Option.isNone_some, Bool.or_self, if_false] at heq
        exact absurd heq (by simp)

/-- Witness for C10: from the freshly constructed loader, `save` does not
hit the no-backing-path branch. -/
theorem open_handle_has_backing_path_witness :
    ExcelLoader.loader_save fsCorrupt ExcelLoader.emptyLoader
      ≠ Except.error (Err.validation "No backing path associated with this workbook.") :=
  (open_handle_has_backing_path ExcelLoader.emptyLoader LoaderReachable.init).2 fsCorrupt

/-! ### C3: which session operations re-verify the template signature -/

/-- Counterexample to C3: with an active session whose backing file lost
its template marker, `read_all` fails with the mismatch error, but `save`
and `save_backup` succeed — they perform no signature re-verification. -/
theorem save_skips_signature_reverification :
    ExcelLoader.verify_template corruptSheet = false
    ∧ (SessionManager.save smActive fsCorrupt).isOk = true
    ∧ (SessionManager.save_backup smActive fsCorrupt
        "R/template/file_storage/backups" "20250101_120000").isOk = true
    ∧ SessionManager.read_all smActive fsCorrupt
        = Except.error (Err.validation SessionManager.mismatchMsg) := by
  refine ⟨by decide, by decide, by decide, by rfl⟩

/-- C3 (amended): with an active session whose backing file opens but no
longer passes signature verification, `read_all` and `write_all`
re-verify the template signature and fail with the mismatch error, while
`save` opens a fresh handle and saves without re-verifying. -/
theorem session_ops_reverification_split
    (sm : SessionManager.SM) (fs : FS) (p : String) (f : FileRec)
    (hp : sm.state_path = Option.some p)
    (hlook : lookupFile fs p = Option.some f)
    (hopen : validate_open_excel_path fs p = Except.ok ())
    (hload : f.loadable = true)
    (hver : ExcelLoader.verify_template f.content = false) :
    SessionManager.read_all sm fs
        = Except.error (Err.validation SessionManager.mismatchMsg)
    ∧ (∀ data, SessionManager.write_all sm fs data
        = Except.error (Err.validation SessionManager.mismatchMsg))
    ∧ (SessionManager.save sm fs).isOk = true := by
  have hfe : fileExists fs p = true := by
    unfold fileExists
    rw [hlook]
    rfl
  have hreq : SessionManager.require_active_session sm fs = Except.ok () := by
    unfold SessionManager.require_active_session SessionManager.is_session_active
    rw [hp]
    dsimp only
    rw [hfe]
    simp
  have hopenres : ExcelLoader.loader_open fs ExcelLoader.emptyLoader p
      = (⟨Option.some f.content, Option.some f.content, Option.some p⟩, Except.ok ()) := by
    unfold ExcelLoader.loader_open ExcelLoader.loadWorkbook
    rw [hopen, hlook]
    dsimp only
    rw [hload]
    rfl
  have hverify : ExcelLoader.loader_verify_template
      ⟨Option.some f.content, Option.some f.content, Option.some p⟩
      = Except.ok false := by
    unfold ExcelLoader.loader_verify_template
    dsimp only
    rw [hver]
  refine ⟨?_, ?_, ?_⟩
  · unfold SessionManager.read_all
    rw [hreq]
    dsimp only
    rw [hp]
    dsimp only
    rw [hopenres]
    dsimp only
    rw [hverify]
  · intro data
    unfold SessionManager.write_all
    rw [hreq]
    dsimp only
    rw [hp]
    dsimp only
    rw [hopenres]
    dsimp only
    rw [hverify]
  · unfold SessionManager.save
    rw [hreq]
    dsimp only
    rw [hp]
    dsimp only
    rw [hopenres]
    dsimp only
    unfold ExcelLoader.loader_save
    rfl

/-- Witness for the amended C3 at the corrupted-session scenario. -/
theorem session_ops_reverification_split_witness :
    SessionManager.read_all smActive fsCorrupt
        = Except.error (Err.validation SessionManager.mismatchMsg)
    ∧ (SessionManager.save smActive fsCorrupt).isOk = true := by
  have h := session_ops_reverification_split smActive fsCorrupt
      "R/template/file_storage/user_data.xlsx" ⟨corruptSheet, 4096, true, true⟩
      rfl rfl (by decide) rfl (by decide)
  exact ⟨h.1, h.2.2⟩

/-! ### C4: upload validation precedes any session-state change -/

/-- C4: `start_imported_session` validates the upload before touching any
session state: when the upload exists, is readable, fits the size limit,
but fails signature verification, the operation returns the
format-mismatch error and leaves the orchestrator state and the
filesystem unchanged. -/
theorem start_imported_session_rejects_bad_signature
    (sm : SessionManager.SM) (fs : FS) (src : String) (f : FileRec)
    (h1 : SessionManager.ensure_base_paths sm fs = Except.ok ())
    (h2 : validate_user_upload_path fs src = Except.ok ())
    (h3 : validate_upload_filesize fs src = Except.ok ())
    (hf : lookupFile fs src = Option.some f)
    (hl : f.loadable = true)
    (hm : validator_marker_ok f.content = false) :
    SessionManager.start_imported_session sm fs src
      = (sm, fs, Except.error (Err.validation
          "This file doesn't match the Money Manager template (missing 'MM_TMU' marker in cell A1).")) := by
  have hsig : validate_template_signature fs src = Except.error (Err.validation
      "This file doesn't match the Money Manager template (missing 'MM_TMU' marker in cell A1).") := by
    unfold validate_template_signature
    rw [hf]
    dsimp only
    rw [hl, hm]
    simp
  unfold SessionManager.start_imported_session
  rw [h1]
  dsimp only
  rw [h2]
  dsimp only
  rw [h3]
  dsimp only
  rw [hsig]

/-- Witness for C4: a readable, small `.xlsx` upload with a corrupted
marker is rejected with the state untouched. -/
theorem start_imported_session_rejects_bad_signature_witness :
    SessionManager.start_imported_session smFresh fsUpload "up.xlsx"
      = (smFresh, fsUpload, Except.error (Err.validation
          "This file doesn't match the Money Manager template (missing 'MM_TMU' marker in cell A1).")) :=
  start_imported_session_rejects_bad_signature smFresh fsUpload "up.xlsx"
    ⟨corruptSheet, 4096, true, true⟩ (by decide) (by decide) (by decide) rfl rfl (by decide)

/-! ### C9: backup names take the highest existing suffix plus one -/

theorem foldl_max_init_le (l : List Nat) (a : Nat) :
    a ≤ l.foldl (fun acc x => if acc < x then x else acc) a := by
  induction l generalizing a with
  | nil => exact le_refl a
  | cons b t ih =>
    dsimp only [List.foldl]
    refine le_trans ?_ (ih (if a < b then b else a))
    split <;> omega

theorem foldl_max_le (l : List Nat) (a n : Nat) (h : n ∈ l) :
    n ≤ l.foldl (fun acc x => if acc < x then x else acc) a := by
  induction l generalizing a with
  | nil => cases h
  | cons b t ih =>
    dsimp only [List.foldl]
    rcases List.mem_cons.1 h with h1 | h2
    · subst h1
      refine le_trans ?_ (foldl_max_init_le t (if a < n then n else a))
      split <;> omega
    · exact ih _ h2

/-- C9: `unique_backup_name` chooses a number strictly greater than every
existing suffix matching the backup pattern — the highest plus one, not
the lowest free slot; concretely, with backups `User_Data_Fresh_1.xlsx`
and `User_Data_Fresh_3.xlsx` on disk, ending a `FRESH` session archives
to `User_Data_Fresh_4.xlsx`. -/
theorem unique_backup_name_max_plus_one
    (sm : SessionManager.SM) (fs : FS) (pre name base : String) (n : Nat) (fr : FileRec)
    (hmem : (name, fr) ∈ fs.files)
    (hbase : SessionManager.baseInDir sm.backups_dir name = Option.some base)
    (hglob : isSuffixL ".xlsx".data base.data = true)
    (hsuf : SessionManager.parse_backup_suffix pre base = Option.some n) :
    n < SessionManager.backup_next_n sm fs pre
    ∧ SessionManager.unique_backup_name sm fs pre
        = sm.backups_dir ++ "/" ++ pre ++ "_"
            ++ natStr (SessionManager.backup_next_n sm fs pre) ++ ".xlsx"
    ∧ SessionManager.unique_backup_name smActive fsBackups "User_Data_Fresh"
        = "R/template/file_storage/backups/User_Data_Fresh_4.xlsx"
    ∧ (SessionManager.end_session_and_archive smActive fsBackups).2.2
        = Except.ok (Option.some "R/template/file_storage/backups/User_Data_Fresh_4.xlsx") := by
  have hns : n ∈ fs.files.filterMap (fun nf =>
      match SessionManager.baseInDir sm.backups_dir nf.1 with
      | Option.none => Option.none
      | Option.some base2 =>
        if isSuffixL ".xlsx".data base2.data then SessionManager.parse_backup_suffix pre base2
        else Option.none) := by
    refine List.mem_filterMap.2 ⟨(name, fr), hmem, ?_⟩
    dsimp only
    rw [hbase]
    dsimp only
    rw [hglob]
    simp [hsuf]
  refine ⟨?_, rfl, by decide, by decide⟩
  unfold SessionManager.backup_next_n
  exact Nat.lt_succ_of_le (foldl_max_le _ 0 n hns)

/-- Witness for C9: the suffix `3` of `User_Data_Fresh_3.xlsx` is
exceeded by the chosen number, and the chosen name is `…Fresh_4.xlsx`. -/
theorem unique_backup_name_max_plus_one_witness :
    3 < SessionManager.backup_next_n smActive fsBackups "User_Data_Fresh"
    ∧ SessionManager.unique_backup_name smActive fsBackups "User_Data_Fresh"
        = "R/template/file_storage/backups/User_Data_Fresh_4.xlsx" := by
  have h := unique_backup_name_max_plus_one smActive fsBackups "User_Data_Fresh"
      "R/template/file_storage/backups/User_Data_Fresh_3.xlsx" "User_Data_Fresh_3.xlsx"
      3 backupRec (List.Mem.tail _ (List.Mem.tail _ (List.Mem.head _))) (by decide)
      (by decide) (by decide)
  exact ⟨h.1, h.2.2.1⟩

end MoneyManager
